import Mathlib

/-!
Verification development for the py-itpp example repository.

The repository consists of a makefile fragment (`makerules`) and three
Jupyter notebooks (a BICM/OFDM simulation, a convolutional-coding
simulation, and a MIMO spatial-multiplexing simulation) that orchestrate
calls into the external `itpp` library.

Two complementary embeddings are developed:

* a deep embedding of the notebooks' Python code as a small AST
  (`PyExpr` / `PyStmt`), on which structural and provenance properties
  (which values come from external library calls, statement ordering,
  presence or absence of calls) are decided;
* shallow functional models of the notebooks' simulation pipelines, in
  which every external `itpp` routine is an opaque parameter (a field of
  a structure of functions) and the notebook's own control and data flow
  is modelled exactly, for quantitative and termination properties.
-/

namespace PyItpp

/-- Expressions of the Python subset used by the notebooks.
Dotted references such as `itpp.randb` or `np.mean` are kept as a single
function-name string in `call`; keyword arguments are recorded
positionally; float literals keep their source text. -/
inductive PyExpr where
  | intLit (n : ℤ)
  | floatLit (s : String)
  | strLit (s : String)
  | boolLit (b : Bool)
  | name (x : String)
  | binop (op : String) (a b : PyExpr)
  | unop (op : String) (a : PyExpr)
  | call (f : String) (args : List PyExpr)
  | method (recv : PyExpr) (m : String) (args : List PyExpr)
  | subscript (a : PyExpr) (i : PyExpr)
  | tuple (xs : List PyExpr)
  | listLit (xs : List PyExpr)
  | dictLit (keys : List String) (vals : List PyExpr)
  | listComp (body : PyExpr) (v : String) (iter : PyExpr)

/-- Statements of the Python subset used by the notebooks. -/
inductive PyStmt where
  | imp (mod : String)
  | assign (x : String) (e : PyExpr)
  | subscriptAssign (x : String) (i : PyExpr) (e : PyExpr)
  | exprS (e : PyExpr)
  | forS (v : String) (iter : PyExpr) (body : List PyStmt)
  | whileS (c : PyExpr) (body : List PyStmt)
  | ifS (c : PyExpr) (thn els : List PyStmt)
  | breakS
  | defS (fname : String) (params : List String) (body : List PyStmt)
  | classS (cname : String) (body : List PyStmt)

/- Does the expression contain a call or method invocation named `f`? -/
mutual
def exprHasCall (f : String) : PyExpr → Bool
  | .call g args => g == f || exprsHaveCall f args
  | .method r m args => m == f || exprHasCall f r || exprsHaveCall f args
  | .binop _ a b => exprHasCall f a || exprHasCall f b
  | .unop _ a => exprHasCall f a
  | .subscript a i => exprHasCall f a || exprHasCall f i
  | .tuple xs => exprsHaveCall f xs
  | .listLit xs => exprsHaveCall f xs
  | .dictLit _ vs => exprsHaveCall f vs
  | .listComp b _ it => exprHasCall f b || exprHasCall f it
  | _ => false

def exprsHaveCall (f : String) : List PyExpr → Bool
  | [] => false
  | e :: es => exprHasCall f e || exprsHaveCall f es
end

/- Does any statement of the list (recursively, loop and branch bodies
included) contain a call or method invocation named `f`? -/
mutual
def stmtHasCall (f : String) : PyStmt → Bool
  | .assign _ e => exprHasCall f e
  | .subscriptAssign _ i e => exprHasCall f i || exprHasCall f e
  | .exprS e => exprHasCall f e
  | .forS _ it body => exprHasCall f it || stmtsHaveCall f body
  | .whileS c body => exprHasCall f c || stmtsHaveCall f body
  | .ifS c thn els => exprHasCall f c || stmtsHaveCall f thn || stmtsHaveCall f els
  | .defS _ _ body => stmtsHaveCall f body
  | .classS _ body => stmtsHaveCall f body
  | _ => false

def stmtsHaveCall (f : String) : List PyStmt → Bool
  | [] => false
  | s :: ss => stmtHasCall f s || stmtsHaveCall f ss
end

/- Does the statement list (recursively) contain a function or class
definition? The notebooks define none: every algorithm is invoked from
the imported `itpp` module, not implemented locally. -/
mutual
def stmtHasDef : PyStmt → Bool
  | .defS _ _ _ => true
  | .classS _ _ => true
  | .forS _ _ body => stmtsHaveDef body
  | .whileS _ body => stmtsHaveDef body
  | .ifS _ thn els => stmtsHaveDef thn || stmtsHaveDef els
  | _ => false

def stmtsHaveDef : List PyStmt → Bool
  | [] => false
  | s :: ss => stmtHasDef s || stmtsHaveDef ss
end

/- The first assignment to variable `x`, in document order, descending
into loop and branch bodies. -/
mutual
def firstAssign (x : String) : List PyStmt → Option PyExpr
  | [] => none
  | s :: ss =>
    match firstAssignStmt x s with
    | some e => some e
    | none => firstAssign x ss

def firstAssignStmt (x : String) : PyStmt → Option PyExpr
  | .assign y e => if y == x then some e else none
  | .forS _ _ body => firstAssign x body
  | .whileS _ body => firstAssign x body
  | .ifS _ thn els =>
    match firstAssign x thn with
    | some e => some e
    | none => firstAssign x els
  | _ => none
end

open PyExpr PyStmt in
/-- Deep embedding of the BICM/OFDM example notebook (the first notebook of
the repository), code cells in document order.  Comments, commented-out
plotting code and markdown cells are omitted; keyword arguments
(`sampling_time=1e-6`, `fft_size=nrof_subcarriers`, `allow_pickle=True`)
are recorded positionally. -/
def ofdmNotebook : List PyStmt := [
  imp "itpp",
  imp "matplotlib.pyplot",
  assign "modulation_order" (intLit 1),
  assign "nrof_subcarriers" (intLit 256),
  assign "nrof_transmit_bits" (binop "*" (name "nrof_subcarriers") (name "modulation_order")),
  assign "nrof_information_bits" (intLit 80),
  assign "nrof_channel_use" (intLit 100000),
  exprS (call "print" [binop "%" (strLit "Transmitted bits per channel use: %d") (name "nrof_transmit_bits")]),
  exprS (call "itpp.RNG_reset" [intLit 42]),
  assign "conv_code" (call "itpp.comm.Convolutional_Code" []),
  assign "generators" (call "itpp.ivec" [intLit 3]),
  subscriptAssign "generators" (intLit 0) (intLit 91),
  subscriptAssign "generators" (intLit 1) (intLit 101),
  subscriptAssign "generators" (intLit 2) (intLit 125),
  assign "constraint_length" (intLit 7),
  exprS (method (name "conv_code") "set_generator_polynomials" [name "generators", name "constraint_length"]),
  assign "dummy" (call "itpp.bvec" []),
  exprS (method (name "conv_code") "encode_tail" [call "itpp.randb" [name "nrof_information_bits"], name "dummy"]),
  assign "nrof_coded_bits" (method (name "dummy") "length" []),
  exprS (call "print" [binop "%" (strLit "Nominal channel code rate: %f") (binop "/" (call "float" [name "nrof_information_bits"]) (call "float" [name "nrof_coded_bits"]))]),
  exprS (call "print" [binop "%" (strLit "Transmitted channel code rate: %f") (binop "/" (call "float" [name "nrof_information_bits"]) (call "float" [name "nrof_transmit_bits"]))]),
  ifS (binop "==" (name "modulation_order") (intLit 1))
    [assign "modulator" (call "itpp.comm.BPSK_c" [])]
    [ifS (binop "in" (name "modulation_order") (listLit [intLit 2, intLit 4, intLit 6, intLit 8]))
      [assign "modulator" (call "itpp.comm.QAM" [call "int" [call "itpp.math.pow" [intLit 2, name "modulation_order"]]])]
      [exprS (call "print" [binop "%" (strLit "Modulation order %d not supported") (name "modulation_order")])]],
  assign "channel_model" (call "itpp.comm.Channel_Specification" [name "itpp.comm.CHANNEL_PROFILE.ITU_Vehicular_A"]),
  assign "channel" (call "itpp.comm.TDL_Channel" [name "channel_model", floatLit "1e-6"]),
  exprS (method (name "channel") "set_norm_doppler" [floatLit "0.01"]),
  assign "channel_impulse_response" (call "itpp.cmat" []),
  exprS (method (name "channel") "generate" [name "nrof_channel_use", name "channel_impulse_response"]),
  assign "channel_frequency_response" (call "itpp.cmat" []),
  exprS (method (name "channel") "calc_frequency_response" [name "channel_impulse_response", name "channel_frequency_response", name "nrof_subcarriers"]),
  assign "noise_variance" (floatLit "0.02"),
  assign "soft_values" (call "itpp.vec" [name "nrof_coded_bits"]),
  assign "success" (call "itpp.bvec" [name "nrof_channel_use"]),
  forS "i" (call "range" [name "nrof_channel_use"]) [
    assign "information_bits" (call "itpp.randb" [name "nrof_information_bits"]),
    assign "code_bits" (method (name "conv_code") "encode_tail" [name "information_bits"]),
    ifS (binop ">" (method (name "code_bits") "length" []) (name "nrof_transmit_bits"))
      [assign "transmit_bits" (method (name "code_bits") "left" [name "nrof_transmit_bits"])]
      [assign "transmit_bits" (name "code_bits")],
    assign "modulated_symbols" (method (name "modulator") "modulate_bits" [name "transmit_bits"]),
    assign "ofdm_symbols" (call "itpp.signal.ifft" [name "modulated_symbols", name "nrof_subcarriers"]),
    assign "channel_coefficents" (method (name "channel_frequency_response") "get_col" [name "i"]),
    assign "noise" (binop "*" (call "itpp.randn_c" [name "nrof_subcarriers"]) (binop "*" (floatLit "0.5") (call "itpp.math.sqrt" [name "noise_variance"]))),
    assign "received_symbols" (binop "+" (call "itpp.elem_mult" [name "ofdm_symbols", name "channel_coefficents"]) (name "noise")),
    assign "demultiplexed_symbols" (call "itpp.signal.fft" [name "received_symbols", name "nrof_subcarriers"]),
    assign "demodulated_soft_values" (method (name "modulator") "demodulate_soft_bits" [name "demultiplexed_symbols", name "channel_coefficents", name "noise_variance", name "itpp.comm.Soft_Method.LOGMAP"]),
    ifS (binop ">" (name "nrof_coded_bits") (name "nrof_transmit_bits"))
      [exprS (method (name "demodulated_soft_values") "ins" [name "nrof_transmit_bits", call "itpp.zeros" [binop "-" (name "nrof_coded_bits") (name "nrof_transmit_bits")]])]
      [],
    assign "decoded_bits" (method (name "conv_code") "decode_tail" [name "demodulated_soft_values"]),
    ifS (binop "==" (name "information_bits") (name "decoded_bits"))
      [subscriptAssign "success" (name "i") (call "itpp.bin" [boolLit true])]
      [subscriptAssign "success" (name "i") (call "itpp.bin" [boolLit false])]
  ],
  exprS (call "print" [strLit "Done!"]),
  imp "numpy",
  assign "error_rate" (binop "-" (floatLit "1.0") (call "np.mean" [call "np.array" [name "success"]])),
  exprS (call "print" [binop "%" (strLit "Error rate: %f") (name "error_rate")]),
  assign "channel_magnitude" (call "np.absolute" [call "np.array" [name "channel_frequency_response"]]),
  assign "transmission_success" (call "np.array" [name "success"]),
  exprS (call "np.save" [strLit "datafile.npy",
    dictLit ["channel_magnitude", "transmission_success"] [name "channel_magnitude", name "transmission_success"]]),
  assign "data" (subscript (call "np.load" [strLit "datafile.npy", boolLit true]) (tuple [])),
  exprS (call "print" [method (subscript (name "data") (strLit "channel_magnitude")) "shape" []]),
  exprS (call "print" [method (subscript (name "data") (strLit "transmission_success")) "shape" []])
]

open PyExpr PyStmt in
/-- Deep embedding of the convolutional encoder/decoder example notebook
(the second notebook of the repository), code cells in document order.
Keyword arguments (`noisevar=0`, `indelay=0`, `inignorefirst=0`,
`inignorelast=0`) are recorded positionally; attribute access is
recorded as a zero-argument method. -/
def convcodeNotebook : List PyStmt := [
  imp "itpp",
  imp "matplotlib.pyplot",
  assign "conv_code" (call "itpp.comm.Convolutional_Code" []),
  assign "generators" (call "itpp.ivec" [intLit 3]),
  subscriptAssign "generators" (intLit 0) (intLit 91),
  subscriptAssign "generators" (intLit 1) (intLit 101),
  subscriptAssign "generators" (intLit 2) (intLit 125),
  assign "constraint_length" (intLit 7),
  exprS (method (name "conv_code") "set_generator_polynomials" [name "generators", name "constraint_length"]),
  assign "bpsk" (call "itpp.comm.BPSK" []),
  assign "channel" (call "itpp.comm.AWGN_Channel" [intLit 0]),
  assign "berc" (call "itpp.comm.BERC" [intLit 0, intLit 0, intLit 0]),
  assign "EbN0_dB" (call "itpp.vec" [strLit "-5:0.5:5"]),
  assign "energy_per_bit" (binop "/" (floatLit "1.0") (method (name "conv_code") "get_rate" [])),
  assign "nrof_bits" (intLit 10000),
  assign "max_errors" (intLit 100),
  assign "max_iterations" (intLit 10),
  assign "ber" (call "itpp.vec" [method (name "EbN0_dB") "length" []]),
  exprS (method (name "ber") "clear" []),
  exprS (call "itpp.random.RNG_reset" [intLit 42]),
  assign "transmitted_symbols" (call "itpp.vec" []),
  forS "p" (call "range" [method (name "EbN0_dB") "length" []]) [
    exprS (call "print" [binop "%" (strLit "Now simulating point %d out of %d with EbN0_dB = %.2f")
      (tuple [binop "+" (name "p") (intLit 1), method (name "EbN0_dB") "length" [], subscript (name "EbN0_dB") (name "p")])]),
    exprS (method (name "berc") "clear" []),
    assign "noise_variance" (binop "**" (intLit 10) (binop "*" (floatLit "-0.1") (subscript (name "EbN0_dB") (name "p")))),
    exprS (method (name "channel") "set_noise" [binop "/" (name "noise_variance") (floatLit "2.0")]),
    forS "i" (call "range" [name "max_iterations"]) [
      assign "uncoded_bits" (call "itpp.random.randb" [name "nrof_bits"]),
      assign "coded_bits" (method (name "conv_code") "encode" [name "uncoded_bits"]),
      exprS (method (name "bpsk") "modulate_bits" [name "coded_bits", name "transmitted_symbols"]),
      assign "received_symbols" (call "channel" [name "transmitted_symbols"]),
      assign "decoded_bits" (method (name "conv_code") "decode" [name "received_symbols"]),
      exprS (method (name "berc") "count" [name "uncoded_bits", name "decoded_bits"]),
      subscriptAssign "ber" (name "p") (method (name "berc") "get_errorrate" []),
      ifS (binop ">" (method (name "berc") "get_errors" []) (name "max_errors"))
        [exprS (call "print" [binop "%" (strLit "Breaking on point %d with %d errors")
            (tuple [binop "+" (name "p") (intLit 1), method (name "berc") "get_errors" []])]),
         breakS]
        []
    ]
  ],
  imp "numpy",
  assign "EbN0_dB_np" (call "np.array" [listComp (subscript (name "EbN0_dB") (name "i")) "i" (call "range" [method (name "EbN0_dB") "length" []])]),
  assign "ber_np" (call "np.array" [listComp (subscript (name "ber") (name "i")) "i" (call "range" [method (name "ber") "length" []])]),
  exprS (call "plt.figure" []),
  exprS (call "plt.grid" [boolLit true]),
  exprS (call "plt.semilogy" [name "EbN0_dB_np", name "ber_np"]),
  exprS (call "plt.xlabel" [strLit "EbN0_dB"]),
  exprS (call "plt.ylabel" [strLit "BER"]),
  exprS (call "plt.show" [])
]

open PyExpr PyStmt in
/-- Deep embedding of the MIMO spatial-multiplexing example notebook
(`Example3a_MIMO_spatial_multiplexing.ipynb`), code cells in document
order.  Keyword arguments (`indelay=0`, `inignorefirst=0`,
`inignorelast=0`, `keepzeroes=0`) are recorded positionally. -/
def mimoNotebook : List PyStmt := [
  imp "itpp",
  imp "matplotlib.pyplot",
  assign "conv_code" (call "itpp.comm.Convolutional_Code" []),
  assign "generators" (call "itpp.ivec" [intLit 3]),
  subscriptAssign "generators" (intLit 0) (intLit 91),
  subscriptAssign "generators" (intLit 1) (intLit 101),
  subscriptAssign "generators" (intLit 2) (intLit 125),
  assign "constraint_length" (intLit 7),
  exprS (method (name "conv_code") "set_generator_polynomials" [name "generators", name "constraint_length"]),
  assign "nrof_uncoded_bits" (intLit 1000),
  assign "dummy" (call "itpp.bvec" []),
  exprS (method (name "conv_code") "encode_tail" [call "itpp.randb" [name "nrof_uncoded_bits"], name "dummy"]),
  assign "nrof_coded_bits" (method (name "dummy") "length" []),
  assign "rate" (binop "/" (call "float" [name "nrof_uncoded_bits"]) (call "float" [name "nrof_coded_bits"])),
  assign "constellation_index" (intLit 1),
  assign "nrof_transmit_antenna" (intLit 4),
  assign "nrof_receive_antenna" (intLit 4),
  assign "nrof_coherent_samples" (intLit 10),
  assign "nrof_bits_per_channel_use" (binop "*" (binop "*" (intLit 2) (name "constellation_index")) (name "nrof_transmit_antenna")),
  assign "nrof_channel_use" (call "int" [binop "/" (name "nrof_coded_bits") (name "nrof_bits_per_channel_use")]),
  assign "nrof_transmit_bits" (binop "*" (name "nrof_bits_per_channel_use") (name "nrof_channel_use")),
  assign "mimo_modulator" (call "itpp.comm.ND_UQAM" [name "nrof_transmit_antenna", call "int" [call "itpp.math.pow" [intLit 2, binop "*" (intLit 2) (name "constellation_index")]]]),
  assign "sequence_interleaver_b" (call "itpp.comm.sequence_interleaver_bin" [name "nrof_coded_bits"]),
  assign "sequence_interleaver_i" (call "itpp.comm.sequence_interleaver_int" [name "nrof_coded_bits"]),
  exprS (method (name "sequence_interleaver_b") "randomize_interleaver_sequence" []),
  exprS (method (name "sequence_interleaver_i") "set_interleaver_sequence" [method (name "sequence_interleaver_b") "get_interleaver_sequence" []]),
  assign "EbN0_db" (call "itpp.vec" [strLit "-10:1:10"]),
  assign "nrof_max_bits" (intLit 50000),
  exprS (call "print" [binop "%" (strLit "Initializing %d transmit antennas, %d receive antennas, %d-PAM per dimension, %d coherent samples")
    (tuple [name "nrof_transmit_antenna", name "nrof_receive_antenna", call "itpp.math.pow" [intLit 2, name "constellation_index"], name "nrof_coherent_samples"])]),
  ifS (binop "==" (name "nrof_coherent_samples") (intLit 1))
    [assign "ber_min" (floatLit "0.001"),
     assign "fer_min" (intLit (-1)),
     assign "nrof_bers" (intLit 2000),
     assign "nrof_fers" (intLit (-1))]
    [assign "ber_min" (intLit (-1)),
     assign "fer_min" (floatLit "0.01"),
     assign "nrof_bers" (intLit (-1)),
     assign "nrof_fers" (intLit 200)],
  ifS (binop ">" (call "itpp.math.pow" [floatLit "2.0", name "nrof_bits_per_channel_use"]) (intLit 256))
    [exprS (call "print" [strLit "WARNING: ML decoder too complex, try approximate approach"])]
    [],
  ifS (binop ">" (name "nrof_transmit_antenna") (name "nrof_receive_antenna"))
    [exprS (call "print" [strLit "WARNING: Undetermined system, do not use ZF decoder "])]
    [],
  exprS (call "itpp.random.RNG_reset" [intLit 42]),
  assign "received_symbols" (listComp (call "itpp.cvec" []) "_" (call "range" [name "nrof_channel_use"])),
  assign "nrof_channel_samples" (binop "+" (call "int" [binop "/" (name "nrof_channel_use") (name "nrof_coherent_samples")]) (intLit 1)),
  assign "channel_coefficients" (listComp (call "itpp.cmat" []) "_" (call "range" [name "nrof_channel_samples"])),
  assign "uncoded_bit_error_counter" (call "itpp.comm.BERC" [intLit 0, intLit 0, intLit 0]),
  assign "coded_bit_error_counter" (call "itpp.comm.BERC" [intLit 0, intLit 0, intLit 0]),
  assign "frame_error_counter" (call "itpp.comm.BLERC" [name "nrof_uncoded_bits"]),
  assign "llr_in" (call "itpp.ivec" [name "nrof_coded_bits"]),
  assign "llr_priori" (call "itpp.ivec" [name "nrof_bits_per_channel_use"]),
  assign "llr_posteriori" (call "itpp.ivec" [name "nrof_bits_per_channel_use"]),
  assign "uncoded_bit_error_rate" (listLit []),
  assign "coded_bit_error_rate" (listLit []),
  assign "frame_error_rate" (listLit []),
  forS "snr_index" (call "range" [method (name "EbN0_db") "length" []]) [
    exprS (method (name "uncoded_bit_error_counter") "clear" []),
    exprS (method (name "coded_bit_error_counter") "clear" []),
    exprS (method (name "frame_error_counter") "clear" []),
    assign "energy_per_bit" (floatLit "1.0"),
    assign "noise_variance" (binop "**" (intLit 10) (binop "*" (floatLit "-0.1") (subscript (name "EbN0_db") (name "snr_index")))),
    assign "energy_per_complex_symbol" (binop "*" (binop "*" (binop "*" (name "rate") (intLit 2)) (name "constellation_index")) (name "energy_per_bit")),
    assign "nrof_bits" (intLit 0),
    whileS (binop "<" (name "nrof_bits") (name "nrof_max_bits")) [
      assign "nrof_bits" (binop "+" (name "nrof_bits") (name "nrof_uncoded_bits")),
      assign "information_bits" (call "itpp.randb" [name "nrof_uncoded_bits"]),
      assign "transmit_bits" (call "itpp.bvec" []),
      exprS (method (name "conv_code") "encode_tail" [name "information_bits", name "transmit_bits"]),
      assign "transmit_bits" (call "itpp.concat" [name "transmit_bits", call "itpp.randb" [binop "-" (name "nrof_transmit_bits") (name "nrof_coded_bits")]]),
      assign "transmit_bits" (method (name "sequence_interleaver_b") "interleave" [name "transmit_bits"]),
      forS "k" (call "range" [name "nrof_channel_use"]) [
        assign "channel_sample_index" (call "int" [binop "/" (name "k") (name "nrof_coherent_samples")]),
        ifS (binop "==" (binop "%" (name "k") (name "nrof_coherent_samples")) (intLit 0))
          [subscriptAssign "channel_coefficients" (name "channel_sample_index")
            (binop "*" (call "itpp.math.sqrt" [name "energy_per_complex_symbol"])
              (call "itpp.randn_c" [name "nrof_receive_antenna", name "nrof_transmit_antenna"]))]
          [],
        assign "bits" (method (name "transmit_bits") "mid" [binop "*" (name "k") (name "nrof_bits_per_channel_use"), name "nrof_bits_per_channel_use"]),
        assign "sym" (method (name "mimo_modulator") "modulate_bits" [name "bits"]),
        assign "noise" (binop "*" (call "itpp.math.sqrt" [name "noise_variance"]) (call "itpp.randn_c" [name "nrof_receive_antenna"])),
        subscriptAssign "received_symbols" (name "k")
          (binop "+" (binop "*" (subscript (name "channel_coefficients") (name "channel_sample_index")) (name "sym")) (name "noise"))
      ],
      exprS (method (name "llr_in") "clear" []),
      exprS (method (name "llr_priori") "clear" []),
      exprS (method (name "llr_posteriori") "clear" []),
      forS "k" (call "range" [name "nrof_channel_use"]) [
        assign "channel_sample_index" (call "int" [binop "/" (name "k") (name "nrof_coherent_samples")]),
        assign "recv" (subscript (name "received_symbols") (name "k")),
        assign "chan" (subscript (name "channel_coefficients") (name "channel_sample_index")),
        exprS (method (name "mimo_modulator") "demodulate_soft_bits"
          [subscript (name "received_symbols") (name "k"),
           subscript (name "channel_coefficients") (name "channel_sample_index"),
           name "noise_variance", name "llr_priori", name "llr_posteriori",
           name "itpp.comm.Soft_Demod_Method.FULL_ENUM_LOGMAP"]),
        exprS (method (name "llr_in") "set_subvector" [binop "*" (name "k") (name "nrof_bits_per_channel_use"), name "llr_posteriori"])
      ],
      assign "llr_deinterleaved" (method (name "sequence_interleaver_i") "deinterleave" [name "llr_in", intLit 0]),
      assign "llr" (method (method (name "mimo_modulator") "get_llrcalc" []) "to_double" [method (name "llr_deinterleaved") "left" [name "nrof_coded_bits"]]),
      assign "decoded_bits" (call "itpp.bvec" []),
      exprS (method (name "conv_code") "decode_tail" [name "llr", name "decoded_bits"]),
      exprS (method (name "uncoded_bit_error_counter") "count" [name "transmit_bits", binop "<" (name "llr_in") (intLit 0)]),
      exprS (method (name "coded_bit_error_counter") "count" [name "information_bits", name "decoded_bits"]),
      exprS (method (name "frame_error_counter") "count" [name "information_bits", name "decoded_bits"]),
      ifS (binop "and" (binop ">" (name "nrof_bers") (intLit 0)) (binop ">" (method (name "coded_bit_error_counter") "get_errors" []) (name "nrof_bers")))
        [breakS] [],
      ifS (binop "and" (binop ">" (name "nrof_fers") (intLit 0)) (binop ">" (method (name "frame_error_counter") "get_errors" []) (name "nrof_fers")))
        [breakS] []
    ],
    exprS (method (name "uncoded_bit_error_rate") "append" [method (name "uncoded_bit_error_counter") "get_errorrate" []]),
    exprS (method (name "coded_bit_error_rate") "append" [method (name "coded_bit_error_counter") "get_errorrate" []]),
    exprS (method (name "frame_error_rate") "append" [method (name "frame_error_counter") "get_errorrate" []]),
    exprS (call "print" [binop "%" (strLit "Eb/N0: %0.2f dB, simulated bits: %d, Uncoded BER: %0.2f, Coded BER: %0.2f, Coded FER: %0.2f")
      (tuple [subscript (name "EbN0_db") (name "snr_index"), name "nrof_bits",
        method (name "uncoded_bit_error_counter") "get_errorrate" [],
        method (name "coded_bit_error_counter") "get_errorrate" [],
        method (name "frame_error_counter") "get_errorrate" []])])
  ],
  exprS (call "plt.figure" []),
  imp "numpy",
  assign "EbN0_db_np" (call "np.array" [listComp (subscript (name "EbN0_db") (name "i")) "i" (call "range" [method (name "EbN0_db") "length" []])]),
  exprS (call "plt.semilogy" [name "EbN0_db_np", name "uncoded_bit_error_rate"]),
  exprS (call "plt.semilogy" [name "EbN0_db_np", name "coded_bit_error_rate"]),
  exprS (call "plt.semilogy" [name "EbN0_db_np", name "frame_error_rate"]),
  exprS (call "plt.legend" [listLit [strLit "Uncoded BER", strLit "Coded BER", strLit "Coded FER"]]),
  exprS (call "plt.show" [])
]

/-- The three example notebooks of the repository, in the order
(OFDM, convolutional coding, MIMO). -/
def notebookList : List (List PyStmt) := [ofdmNotebook, convcodeNotebook, mimoNotebook]

/- Does some for- or while-loop of the statement list have a body that
contains a call or method invocation named `f`?  (Used to express that a
notebook "executes a simulation loop invoking" a given routine.) -/
mutual
def stmtLoopWithCall (f : String) : PyStmt → Bool
  | .forS _ _ body => stmtsHaveCall f body || stmtsLoopWithCall f body
  | .whileS _ body => stmtsHaveCall f body || stmtsLoopWithCall f body
  | .ifS _ thn els => stmtsLoopWithCall f thn || stmtsLoopWithCall f els
  | _ => false

def stmtsLoopWithCall (f : String) : List PyStmt → Bool
  | [] => false
  | s :: ss => stmtLoopWithCall f s || stmtsLoopWithCall f ss
end

/- Structural equality of embedded Python expressions. -/
mutual
def exprEq : PyExpr → PyExpr → Bool
  | .intLit a, .intLit b => a == b
  | .floatLit a, .floatLit b => a == b
  | .strLit a, .strLit b => a == b
  | .boolLit a, .boolLit b => a == b
  | .name a, .name b => a == b
  | .binop o a b, .binop p c d => o == p && exprEq a c && exprEq b d
  | .unop o a, .unop p b => o == p && exprEq a b
  | .call f a, .call g b => f == g && exprsEq a b
  | .method r m a, .method s n b => exprEq r s && m == n && exprsEq a b
  | .subscript a i, .subscript b j => exprEq a b && exprEq i j
  | .tuple a, .tuple b => exprsEq a b
  | .listLit a, .listLit b => exprsEq a b
  | .dictLit k v, .dictLit l w => k == l && exprsEq v w
  | .listComp a v i, .listComp b w j => exprEq a b && v == w && exprEq i j
  | _, _ => false

def exprsEq : List PyExpr → List PyExpr → Bool
  | [], [] => true
  | a :: as, b :: bs => exprEq a b && exprsEq as bs
  | _, _ => false
end

/-- Is the expression a reference to variable `x`? -/
def isName (x : String) : PyExpr → Bool
  | .name y => y == x
  | _ => false

/- All operations applied to variable `x` anywhere in the code: the
right-hand sides of assignments to `x`, and every call or method
invocation that receives `x` as its receiver or as a direct argument.
These are the expressions through which the value of `x` is produced,
transformed or consumed. -/
mutual
def exprOpsOn (x : String) : PyExpr → List PyExpr
  | .call f args =>
      (if args.any (isName x) then [.call f args] else []) ++ exprsOpsOn x args
  | .method r m args =>
      (if isName x r || args.any (isName x) then [.method r m args] else [])
      ++ exprOpsOn x r ++ exprsOpsOn x args
  | .binop _ a b => exprOpsOn x a ++ exprOpsOn x b
  | .unop _ a => exprOpsOn x a
  | .subscript a i => exprOpsOn x a ++ exprOpsOn x i
  | .tuple xs => exprsOpsOn x xs
  | .listLit xs => exprsOpsOn x xs
  | .dictLit _ vs => exprsOpsOn x vs
  | .listComp b _ it => exprOpsOn x b ++ exprOpsOn x it
  | _ => []

def exprsOpsOn (x : String) : List PyExpr → List PyExpr
  | [] => []
  | e :: es => exprOpsOn x e ++ exprsOpsOn x es
end

mutual
def stmtOpsOn (x : String) : PyStmt → List PyExpr
  | .assign y e => (if y == x then [e] else []) ++ exprOpsOn x e
  | .subscriptAssign y i e => (if y == x then [e] else []) ++ exprOpsOn x i ++ exprOpsOn x e
  | .exprS e => exprOpsOn x e
  | .forS _ it body => exprOpsOn x it ++ stmtsOpsOn x body
  | .whileS c body => exprOpsOn x c ++ stmtsOpsOn x body
  | .ifS c thn els => exprOpsOn x c ++ stmtsOpsOn x thn ++ stmtsOpsOn x els
  | .defS _ _ body => stmtsOpsOn x body
  | .classS _ body => stmtsOpsOn x body
  | _ => []

def stmtsOpsOn (x : String) : List PyStmt → List PyExpr
  | [] => []
  | s :: ss => stmtOpsOn x s ++ stmtsOpsOn x ss
end

/-- String prefix test on the underlying character lists. -/
def strStarts (p s : String) : Bool := p.data.isPrefixOf s.data

/-- An operation performed by the external `itpp` library: either a method
invocation on a library object, or a call of a dotted `itpp.*` routine.
Plain calls of local or other-module routines (`np.mean`, `float`, ...)
and local arithmetic (`binop`) are not library operations. -/
def isItppOp : PyExpr → Bool
  | .method _ _ _ => true
  | .call f _ => strStarts "itpp." f
  | _ => false

/-- A statement that resets the `itpp` random number generator to the
fixed seed 42 (`itpp.RNG_reset(42)` or `itpp.random.RNG_reset(42)`). -/
def isRngResetStmt : PyStmt → Bool
  | .exprS (.call f [.intLit n]) =>
      (f == "itpp.RNG_reset" || f == "itpp.random.RNG_reset") && n == 42
  | _ => false

/-- A top-level loop statement. -/
def isLoopStmt : PyStmt → Bool
  | .forS _ _ _ => true
  | .whileS _ _ => true
  | _ => false

/-- Some RNG-reset-to-42 statement occurs strictly before the first
top-level loop of the statement list. -/
def rngResetBeforeFirstLoop : List PyStmt → Bool
  | [] => false
  | s :: ss =>
    if isLoopStmt s then false
    else if isRngResetStmt s then ss.any isLoopStmt
    else rngResetBeforeFirstLoop ss

/-- The body of the first top-level for- or while-loop. -/
def firstLoopBody : List PyStmt → List PyStmt
  | [] => []
  | .forS _ _ body :: _ => body
  | .whileS _ body :: _ => body
  | _ :: ss => firstLoopBody ss

/-- Position of the first statement satisfying `p`, if any. -/
def pyFindIdx (p : PyStmt → Bool) : List PyStmt → Option ℕ
  | [] => none
  | s :: ss => if p s then some 0 else (pyFindIdx p ss).map (· + 1)

/-- The statement assigns variable `x` from an expression that contains a
call or method invocation named `m`. -/
def assignsFromCall (x m : String) : PyStmt → Bool
  | .assign y e => y == x && exprHasCall m e
  | _ => false

/- The receivers of every method invocation named `m`: the receiver's
variable name when the receiver is a variable, `"!"` otherwise. -/
mutual
def exprMethodRecvs (m : String) : PyExpr → List String
  | .method r g args =>
    (if g == m then
      match r with
      | .name x => [x]
      | _ => ["!"]
     else []) ++ exprMethodRecvs m r ++ exprsMethodRecvs m args
  | .call _ args => exprsMethodRecvs m args
  | .binop _ a b => exprMethodRecvs m a ++ exprMethodRecvs m b
  | .unop _ a => exprMethodRecvs m a
  | .subscript a i => exprMethodRecvs m a ++ exprMethodRecvs m i
  | .tuple xs => exprsMethodRecvs m xs
  | .listLit xs => exprsMethodRecvs m xs
  | .dictLit _ vs => exprsMethodRecvs m vs
  | .listComp b _ it => exprMethodRecvs m b ++ exprMethodRecvs m it
  | _ => []

def exprsMethodRecvs (m : String) : List PyExpr → List String
  | [] => []
  | e :: es => exprMethodRecvs m e ++ exprsMethodRecvs m es
end

mutual
def stmtMethodRecvs (m : String) : PyStmt → List String
  | .assign _ e => exprMethodRecvs m e
  | .subscriptAssign _ i e => exprMethodRecvs m i ++ exprMethodRecvs m e
  | .exprS e => exprMethodRecvs m e
  | .forS _ it body => exprMethodRecvs m it ++ stmtsMethodRecvs m body
  | .whileS c body => exprMethodRecvs m c ++ stmtsMethodRecvs m body
  | .ifS c thn els => exprMethodRecvs m c ++ stmtsMethodRecvs m thn ++ stmtsMethodRecvs m els
  | .defS _ _ body => stmtsMethodRecvs m body
  | .classS _ body => stmtsMethodRecvs m body
  | _ => []

def stmtsMethodRecvs (m : String) : List PyStmt → List String
  | [] => []
  | s :: ss => stmtMethodRecvs m s ++ stmtsMethodRecvs m ss
end

/- Does the code contain a plain (non-method) call of `f`? -/
mutual
def exprHasFnCall (f : String) : PyExpr → Bool
  | .call g args => g == f || exprsHaveFnCall f args
  | .method r _ args => exprHasFnCall f r || exprsHaveFnCall f args
  | .binop _ a b => exprHasFnCall f a || exprHasFnCall f b
  | .unop _ a => exprHasFnCall f a
  | .subscript a i => exprHasFnCall f a || exprHasFnCall f i
  | .tuple xs => exprsHaveFnCall f xs
  | .listLit xs => exprsHaveFnCall f xs
  | .dictLit _ vs => exprsHaveFnCall f vs
  | .listComp b _ it => exprHasFnCall f b || exprHasFnCall f it
  | _ => false

def exprsHaveFnCall (f : String) : List PyExpr → Bool
  | [] => false
  | e :: es => exprHasFnCall f e || exprsHaveFnCall f es
end

mutual
def stmtHasFnCall (f : String) : PyStmt → Bool
  | .assign _ e => exprHasFnCall f e
  | .subscriptAssign _ i e => exprHasFnCall f i || exprHasFnCall f e
  | .exprS e => exprHasFnCall f e
  | .forS _ it body => exprHasFnCall f it || stmtsHaveFnCall f body
  | .whileS c body => exprHasFnCall f c || stmtsHaveFnCall f body
  | .ifS c thn els => exprHasFnCall f c || stmtsHaveFnCall f thn || stmtsHaveFnCall f els
  | .defS _ _ body => stmtsHaveFnCall f body
  | .classS _ body => stmtsHaveFnCall f body
  | _ => false

def stmtsHaveFnCall (f : String) : List PyStmt → Bool
  | [] => false
  | s :: ss => stmtHasFnCall f s || stmtsHaveFnCall f ss
end

/-- The first assignment of `x` in the notebook is a call of `f`. -/
def firstAssignIsCall (nb : List PyStmt) (x f : String) : Bool :=
  match firstAssign x nb with
  | some (.call g _) => g == f
  | _ => false

/-- The first assignment of `x` in the notebook constructs an `itpp.*`
object. -/
def firstAssignIsItpp (nb : List PyStmt) (x : String) : Bool :=
  match firstAssign x nb with
  | some (.call g _) => strStarts "itpp." g
  | _ => false

/-- Local arithmetic: the expression is a binary operation evaluated by
the notebook itself rather than a library call. -/
def isLocalArith : PyExpr → Bool
  | .binop _ _ _ => true
  | _ => false

/-- Embedding of the `makerules` fragment: the active (non-comment)
variable definitions, in file order, each as the variable name together
with its list of whitespace-separated definition tokens.  The
`FLAGS_COMMON_MATH` definition is the one inside the
`ifeq ($(FLAGS_FAST_MATH),disable)` branch (the other branch is
commented out). -/
def makerules : List (String × List String) := [
  ("FLAGS_COMMON_MATH", []),
  ("FLAGS_PYTHON",
    ["$(FLAGS_COMMON)", "$(ARCH_FLAGS)", "-shared", "-O3", "-std=c++11", "-Wall", "-fPIC",
     "$(FLAGS_COMMON_MATH)", "$(ADDITIONAL_COMPILER_FLAGS)", "$(USER_FLAGS)"]),
  ("LOCAL_SOURCE_DIR", ["$(LOCAL_HOME)/src"]),
  ("LOCAL_SOURCE_SUBDIRS",
    ["$(strip $(filter-out .svn,$(notdir $(patsubst %/,%,$(dir $(wildcard $(LOCAL_SOURCE_DIR)/*/makefile) ) ) ) ) )"]),
  ("LOCAL_TARGET_DIR", ["$(LOCAL_HOME)/lib/$(LIB_NAME)"]),
  ("LOCAL_LIBPATH", ["-L$(LOCAL_TARGET_DIR)"]),
  ("LOCAL_LIB_SHARED", ["-l$(LIB_BASE_NAME)"]),
  ("LOCAL_LIB_PYTHON", ["$(LIB_BASE_NAME)"]),
  ("TARGET_LIB_SHARED", ["$(LOCAL_TARGET_DIR)/$(LOCAL_TARGET_SHARED)"]),
  ("TARGET_LIB_PYTHON", ["$(LOCAL_TARGET_DIR)/$(LOCAL_TARGET_PYTHON)"]),
  ("PLAIN_LIB_PATHS", ["$(subst -L,,$(LIB_PATH))"]),
  ("LIB_FILES", ["$(foreach dir,$(PLAIN_LIB_PATHS),$(wildcard $(dir)/lib*))"]),
  ("INCLUDE_PATH", ["$(LOCAL_INCLUDE_PATH)", "$(INCLUDE_PATH)"]),
  ("INCLUDE_PATH_system", ["$(subst -I,-isystem,$(INCLUDE_PATH))"]),
  ("INCLUDE_PATH_system",
    ["$(subst $(subst -I,-isystem,$(LOCAL_INCLUDE_PATH)),,$(subst -I,-isystem,$(INCLUDE_PATH)))"])
]

/-- The token list defining make variable `v` (first definition in file
order, `[]` if the fragment does not define it). -/
def makeVar (v : String) : List String :=
  match makerules.find? (fun p => p.1 == v) with
  | some p => p.2
  | none => []

/-- An error-rate statistic reported (printed, stored or plotted) by one
of the notebooks: the notebook, the name under which the value is
reported, and its defining expression as written in the source. -/
structure ErrorStat where
  notebook : String
  statName : String
  defn : PyExpr

open PyExpr in
/-- Every bit-error, frame-error or error-rate statistic reported by the
three notebooks, with its defining expression:
* the OFDM notebook prints `error_rate = 1.0 - np.mean(np.array(success))`;
* the convolutional-coding notebook stores and plots
  `ber[p] = berc.get_errorrate()`;
* the MIMO notebook appends the three counters' `get_errorrate()` values
  to its `*_error_rate` result lists. -/
def errorStatistics : List ErrorStat := [
  ⟨"ofdm", "error_rate",
    binop "-" (floatLit "1.0") (call "np.mean" [call "np.array" [name "success"]])⟩,
  ⟨"convcode", "ber",
    method (name "berc") "get_errorrate" []⟩,
  ⟨"mimo", "uncoded_bit_error_rate",
    method (name "uncoded_bit_error_counter") "get_errorrate" []⟩,
  ⟨"mimo", "coded_bit_error_rate",
    method (name "coded_bit_error_counter") "get_errorrate" []⟩,
  ⟨"mimo", "frame_error_rate",
    method (name "frame_error_counter") "get_errorrate" []⟩
]

/-- The notebook AST a statistics-table entry refers to. -/
def nbOf (nb : String) : List PyStmt :=
  if nb == "ofdm" then ofdmNotebook
  else if nb == "convcode" then convcodeNotebook
  else mimoNotebook

/-- The expression is a `get_errorrate()` invocation on a variable bound
(by its first assignment in the given notebook) to an `itpp.comm.BERC`
or `itpp.comm.BLERC` counter object. -/
def isCounterGetErrorrate (nb : List PyStmt) : PyExpr → Bool
  | .method (.name c) "get_errorrate" [] =>
    match firstAssign c nb with
    | some (.call f _) => f == "itpp.comm.BERC" || f == "itpp.comm.BLERC"
    | _ => false
  | _ => false

/- Does some statement of the list (recursively, loop and branch bodies
included) satisfy `p`? -/
mutual
def stmtContainsWhere (p : PyStmt → Bool) : PyStmt → Bool
  | .forS v it body => p (.forS v it body) || stmtsContainWhere p body
  | .whileS c body => p (.whileS c body) || stmtsContainWhere p body
  | .ifS c thn els => p (.ifS c thn els) || stmtsContainWhere p thn || stmtsContainWhere p els
  | .defS f ps body => p (.defS f ps body) || stmtsContainWhere p body
  | .classS c body => p (.classS c body) || stmtsContainWhere p body
  | s => p s

def stmtsContainWhere (p : PyStmt → Bool) : List PyStmt → Bool
  | [] => false
  | s :: ss => stmtContainsWhere p s || stmtsContainWhere p ss
end

/-- The table entry's defining expression actually occurs in its notebook,
as the reported value of the named statistic:
* `ofdm`: as the right-hand side of the assignment to `error_rate`;
* `convcode`: as the right-hand side of the subscript assignment `ber[p] = ...`;
* `mimo`: as the argument appended to the named `*_error_rate` result list. -/
def statOccurs (st : ErrorStat) : Bool :=
  match st.notebook with
  | "ofdm" =>
    stmtsContainWhere (fun s =>
      match s with
      | .assign y e => y == st.statName && exprEq e st.defn
      | _ => false) (nbOf st.notebook)
  | "convcode" =>
    stmtsContainWhere (fun s =>
      match s with
      | .subscriptAssign y _ e => y == st.statName && exprEq e st.defn
      | _ => false) (nbOf st.notebook)
  | _ =>
    stmtsContainWhere (fun s =>
      match s with
      | .exprS (.method (.name y) "append" [e]) => y == st.statName && exprEq e st.defn
      | _ => false) (nbOf st.notebook)

/-!
Functional models.  Vectors of the `itpp` binding are modelled as Lean
lists; the deterministic semantics of the elementwise `itpp` vector
accessors used by the notebooks (`left`, `ins`, `mid`, `set_subvector`,
`zeros`) is given below, following the IT++ documentation.  Every other
library routine (coding, modulation, channel, counters, random number
generation) is opaque: it is a field of a structure of functions over
abstract carrier types, and the notebooks' own control and data flow is
modelled on top of it.  The random number generator is a threaded
abstract state. -/

/-- `v.left(n)`: the first `n` elements. -/
def vecLeft {α : Type} (v : List α) (n : ℕ) : List α := v.take n

/-- `v.ins(pos, w)`: insert the vector `w` at position `pos`. -/
def vecIns {α : Type} (v : List α) (pos : ℕ) (w : List α) : List α :=
  v.take pos ++ w ++ v.drop pos

/-- `v.mid(start, len)`: the `len` elements starting at `start`. -/
def vecMid {α : Type} (v : List α) (start len : ℕ) : List α :=
  (v.drop start).take len

/-- `v.set_subvector(pos, w)`: overwrite the elements at positions
`pos, ..., pos + w.length - 1` with `w`. -/
def vecSetSub {α : Type} (v : List α) (pos : ℕ) (w : List α) : List α :=
  v.take pos ++ w ++ v.drop (pos + w.length)

/-- `itpp.zeros(n)`: the all-zero real vector of length `n`. -/
def vecZeros (n : ℕ) : List ℚ := List.replicate n 0

/-- `np.mean` of a 0/1 bit array, as used by the OFDM notebook:
the fraction of ones. -/
def npMean (v : List Bool) : ℚ := (v.count true : ℚ) / (v.length : ℚ)

/-! OFDM notebook: simulation parameters (cells 2 and "Generate
transmission symbols"). -/

/-- `modulation_order = 1`. -/
def ofdm_modulation_order : ℕ := 1

/-- `nrof_subcarriers = 256`. -/
def ofdm_nrof_subcarriers : ℕ := 256

/-- `nrof_transmit_bits = nrof_subcarriers * modulation_order`. -/
def ofdm_nrof_transmit_bits : ℕ := ofdm_nrof_subcarriers * ofdm_modulation_order

/-- `nrof_information_bits = 80`. -/
def ofdm_nrof_information_bits : ℕ := 80

/-- `nrof_channel_use = 100000`. -/
def ofdm_nrof_channel_use : ℕ := 100000

/-- `noise_variance = 0.02`. -/
def ofdm_noise_variance : ℚ := 1 / 50

/-- `nrof_coded_bits`: the notebook measures it at run time as the length
of `conv_code.encode_tail` applied to a dummy 80-bit block; its recorded
output `Nominal channel code rate: 0.310078` fixes the measured value to
`80 / 0.310078... = 258` (the rate-1/3, constraint-length-7 tail-coded
block length `3 * (80 + 6)`). -/
def ofdm_nrof_coded_bits : ℕ := 258

/-- Transmitter-side bit selection of the OFDM notebook's loop body:
`transmit_bits = code_bits.left(nrof_transmit_bits)` when the coded block
is longer than `nrof_transmit_bits`, otherwise all of `code_bits`. -/
def ofdmTransmitBits (code_bits : List Bool) : List Bool :=
  if code_bits.length > ofdm_nrof_transmit_bits then
    vecLeft code_bits ofdm_nrof_transmit_bits
  else code_bits

/-- Receiver-side padding of the OFDM notebook's loop body: when
`nrof_coded_bits > nrof_transmit_bits`, the demodulated soft values are
padded with `itpp.zeros(nrof_coded_bits - nrof_transmit_bits)` inserted
at position `nrof_transmit_bits` before channel decoding. -/
def ofdmPad (nrof_coded_bits : ℕ) (ds : List ℚ) : List ℚ :=
  if nrof_coded_bits > ofdm_nrof_transmit_bits then
    vecIns ds ofdm_nrof_transmit_bits (vecZeros (nrof_coded_bits - ofdm_nrof_transmit_bits))
  else ds

/-- The opaque external `itpp` routines used by the OFDM notebook, over
an abstract RNG state `σ`, complex-vector carrier `CVec` and
complex-matrix carrier `CMat`.  RNG-consuming routines thread the state. -/
structure OfdmItpp (σ CVec CMat : Type) where
  RNG_reset : ℤ → σ
  randb : ℕ → σ → List Bool × σ
  encode_tail : List Bool → List Bool
  decode_tail : List ℚ → List Bool
  modulate_bits : List Bool → CVec
  demodulate_soft_bits : CVec → CVec → ℚ → List ℚ
  ifft : CVec → ℕ → CVec
  fft : CVec → ℕ → CVec
  channel_generate : ℕ → σ → CMat × σ
  calc_frequency_response : CMat → ℕ → CMat
  get_col : CMat → ℕ → CVec
  randn_c : ℕ → σ → CVec × σ
  smul : ℚ → CVec → CVec
  elem_mult_add : CVec → CVec → CVec → CVec
  sqrt : ℚ → ℚ

/-- One iteration of the OFDM notebook's simulation loop: transmitter
(random bits, tail encoding, truncation, modulation, inverse FFT),
channel (frequency-domain coefficients, white noise), receiver (FFT,
soft demodulation, zero padding, tail decoding), returning the
transmission-success bit for this channel use. -/
def ofdmIterate {σ CVec CMat : Type} (M : OfdmItpp σ CVec CMat)
    (cfr : CMat) (nrof_coded_bits : ℕ) (i : ℕ) (s : σ) : Bool × σ :=
  let ib := M.randb ofdm_nrof_information_bits s
  let information_bits := ib.1
  let code_bits := M.encode_tail information_bits
  let transmit_bits := ofdmTransmitBits code_bits
  let modulated_symbols := M.modulate_bits transmit_bits
  let ofdm_symbols := M.ifft modulated_symbols ofdm_nrof_subcarriers
  let channel_coefficents := M.get_col cfr i
  let nc := M.randn_c ofdm_nrof_subcarriers ib.2
  let noise := M.smul ((1 / 2 : ℚ) * M.sqrt ofdm_noise_variance) nc.1
  let received_symbols := M.elem_mult_add ofdm_symbols channel_coefficents noise
  let demultiplexed_symbols := M.fft received_symbols ofdm_nrof_subcarriers
  let demodulated_soft_values :=
    M.demodulate_soft_bits demultiplexed_symbols channel_coefficents ofdm_noise_variance
  let demodulated_soft_values := ofdmPad nrof_coded_bits demodulated_soft_values
  let decoded_bits := M.decode_tail demodulated_soft_values
  (information_bits == decoded_bits, nc.2)

/-- The OFDM notebook, executed from an arbitrary initial RNG state `s0`:
parameter setup, `itpp.RNG_reset(42)`, coded-block-length measurement on
a dummy block, channel generation, the simulation loop over
`nrof_channel_use` channel uses, and the locally computed
`error_rate = 1.0 - np.mean(np.array(success))`.  Returns the `success`
vector together with `error_rate`.  The reset precedes every
RNG-consuming call, so `s0` is never consumed. -/
def ofdmRun {σ CVec CMat : Type} (M : OfdmItpp σ CVec CMat) (_s0 : σ) :
    List Bool × ℚ :=
  let s := M.RNG_reset 42
  let db := M.randb ofdm_nrof_information_bits s
  let nrof_coded_bits := (M.encode_tail db.1).length
  let cg := M.channel_generate ofdm_nrof_channel_use db.2
  let cfr := M.calc_frequency_response cg.1 ofdm_nrof_subcarriers
  let res := (List.range ofdm_nrof_channel_use).foldl
    (fun (acc : List Bool × σ) i =>
      let r := ofdmIterate M cfr nrof_coded_bits i acc.2
      (acc.1 ++ [r.1], r.2))
    ([], cg.2)
  (res.1, 1 - npMean res.1)

/-! Convolutional-coding notebook: simulation parameters. -/

/-- `nrof_bits = 10000`. -/
def conv_nrof_bits : ℕ := 10000

/-- `max_errors = 100`. -/
def conv_max_errors : ℤ := 100

/-- `max_iterations = 10`. -/
def conv_max_iterations : ℕ := 10

/-- `EbN0_dB = itpp.vec('-5:0.5:5')`: 21 values from -5 to 5 in steps
of 0.5. -/
def convEbN0 : List ℚ := (List.range 21).map (fun i : ℕ => -5 + (i : ℚ) / 2)

/-- The opaque external `itpp` routines used by the convolutional-coding
notebook, over an abstract RNG state `σ`, real-vector carrier `CVec` and
bit-error-counter state `CSt`.  `awgn` is the AWGN channel applied with
the noise value set by `channel.set_noise`; `pow10` is the Python float
power `10 ** x`. -/
structure ConvItpp (σ CVec CSt : Type) where
  RNG_reset : ℤ → σ
  randb : ℕ → σ → List Bool × σ
  encode : List Bool → List Bool
  decode : CVec → List Bool
  get_rate : ℚ
  modulate_bits : List Bool → CVec
  awgn : ℚ → CVec → σ → CVec × σ
  pow10 : ℚ → ℚ
  berc0 : CSt
  berc_clear : CSt → CSt
  berc_count : List Bool → List Bool → CSt → CSt
  berc_errors : CSt → ℤ
  berc_errorrate : CSt → ℚ

/-- The inner iteration loop of the convolutional-coding notebook, over
the remaining iteration indices of `range(max_iterations)`: random bits,
convolutional encoding, BPSK modulation, AWGN channel, soft decoding,
error counting, `ber[p] = berc.get_errorrate()`, and the early break once
`berc.get_errors() > max_errors`. -/
def convInnerLoop {σ CVec CSt : Type} (M : ConvItpp σ CVec CSt)
    (noise_variance : ℚ) : List ℕ → CSt × ℚ × σ → CSt × ℚ × σ
  | [], st => st
  | _ :: rest, (berc, _berp, s) =>
    let ub := M.randb conv_nrof_bits s
    let uncoded_bits := ub.1
    let coded_bits := M.encode uncoded_bits
    let transmitted_symbols := M.modulate_bits coded_bits
    let rc := M.awgn (noise_variance / 2) transmitted_symbols ub.2
    let received_symbols := rc.1
    let decoded_bits := M.decode received_symbols
    let berc := M.berc_count uncoded_bits decoded_bits berc
    let berp := M.berc_errorrate berc
    if M.berc_errors berc > conv_max_errors then (berc, berp, rc.2)
    else convInnerLoop M noise_variance rest (berc, berp, rc.2)

/-- The convolutional-coding notebook, executed from an arbitrary initial
RNG state `_s0`: coder, modulator, channel and counter setup (none of
which consumes the RNG), `itpp.random.RNG_reset(42)`, and the simulation
loop over the 21 `EbN0_dB` points, each point clearing the counter,
setting the channel noise to `10 ** (-0.1 * EbN0_dB[p]) / 2` and running
the inner iteration loop.  Returns the `ber` values, one per point.
The reset precedes every RNG-consuming call, so `_s0` is never
consumed. -/
def convRun {σ CVec CSt : Type} (M : ConvItpp σ CVec CSt) (_s0 : σ) :
    List ℚ :=
  let _energy_per_bit : ℚ := 1 / M.get_rate
  let s := M.RNG_reset 42
  let res := convEbN0.foldl
    (fun (acc : List ℚ × CSt × σ) ebn0 =>
      let berc := M.berc_clear acc.2.1
      let noise_variance := M.pow10 ((-1 / 10) * ebn0)
      let r := convInnerLoop M noise_variance (List.range conv_max_iterations)
        (berc, 0, acc.2.2)
      (acc.1 ++ [r.2.1], r.1, r.2.2))
    ([], M.berc0, s)
  res.1

/-! MIMO notebook: simulation parameters. -/

/-- `nrof_uncoded_bits = 1000`. -/
def mimo_nrof_uncoded_bits : ℕ := 1000

/-- `constellation_index = 1`. -/
def mimo_constellation_index : ℕ := 1

/-- `nrof_transmit_antenna = 4`. -/
def mimo_nrof_transmit_antenna : ℕ := 4

/-- `nrof_receive_antenna = 4`. -/
def mimo_nrof_receive_antenna : ℕ := 4

/-- `nrof_coherent_samples = 10`. -/
def mimo_nrof_coherent_samples : ℕ := 10

/-- `nrof_bits_per_channel_use = 2 * constellation_index * nrof_transmit_antenna`. -/
def mimo_nrof_bits_per_channel_use : ℕ :=
  2 * mimo_constellation_index * mimo_nrof_transmit_antenna

/-- `EbN0_db = itpp.vec('-10:1:10')`: 21 values from -10 to 10 in steps
of 1. -/
def mimoEbN0 : List ℚ := (List.range 21).map (fun i : ℕ => -10 + (i : ℚ))

/-- `nrof_max_bits = 50000`. -/
def mimo_nrof_max_bits : ℕ := 50000

/-- `nrof_bers`: -1 on the slow-fading branch taken when
`nrof_coherent_samples != 1`. -/
def mimo_nrof_bers : ℤ := if mimo_nrof_coherent_samples == 1 then 2000 else -1

/-- `nrof_fers`: 200 on the slow-fading branch taken when
`nrof_coherent_samples != 1`. -/
def mimo_nrof_fers : ℤ := if mimo_nrof_coherent_samples == 1 then -1 else 200

/-- The opaque external `itpp` routines used by the MIMO notebook, over
an abstract RNG state `σ`, complex-vector carrier `CVec`, complex-matrix
carrier `CMat`, bit-error-counter state `CSt` and block-error-counter
state `FSt`.  `randb` takes an integer length (the notebooks calls it
with the possibly negative `nrof_transmit_bits - nrof_coded_bits`);
`lt_zero` is the elementwise comparison `llr_in < 0`; `to_double` is
`get_llrcalc().to_double`; `cvec0` and `cmat0` are the empty
`itpp.cvec()` and `itpp.cmat()` objects. -/
structure MimoItpp (σ CVec CMat CSt FSt : Type) where
  RNG_reset : ℤ → σ
  randb : ℤ → σ → List Bool × σ
  encode_tail : List Bool → List Bool
  decode_tail : List ℚ → List Bool
  randomize_interleaver_sequence : ℕ → σ → List ℕ × σ
  interleave : List ℕ → List Bool → List Bool
  deinterleave : List ℕ → List ℤ → ℕ → List ℤ
  modulate_bits : List Bool → CVec
  demodulate_soft_bits : CVec → CMat → ℚ → List ℤ → List ℤ → List ℤ
  to_double : List ℤ → List ℚ
  lt_zero : List ℤ → List Bool
  randn_c_vec : ℕ → σ → CVec × σ
  randn_c_mat : ℕ → ℕ → σ → CMat × σ
  smul_mat : ℚ → CMat → CMat
  smul_vec : ℚ → CVec → CVec
  mul_add : CMat → CVec → CVec → CVec
  pow10 : ℚ → ℚ
  sqrt : ℚ → ℚ
  cvec0 : CVec
  cmat0 : CMat
  berc0 : CSt
  berc_clear : CSt → CSt
  berc_count : List Bool → List Bool → CSt → CSt
  berc_errors : CSt → ℤ
  berc_errorrate : CSt → ℚ
  blerc0 : ℕ → FSt
  blerc_clear : FSt → FSt
  blerc_count : List Bool → List Bool → FSt → FSt
  blerc_errors : FSt → ℤ
  blerc_errorrate : FSt → ℚ

/-- The mutable state threaded through the MIMO notebook's simulation:
the `received_symbols` and `channel_coefficients` arrays, the three
error counters and the RNG state. -/
structure MimoSt (σ CVec CMat CSt FSt : Type) where
  received_symbols : List CVec
  channel_coefficients : List CMat
  ubc : CSt
  cbc : CSt
  fec : FSt
  rng : σ

/-- One step (channel use `k`) of the MIMO notebook's channel-generation
loop: a fresh channel matrix scaled by the symbol-energy square root
whenever `k % nrof_coherent_samples == 0`, modulation of the next
`nrof_bits_per_channel_use` transmit bits, white noise, and the received
vector `channel_coefficients[idx] * sym + noise`.  The accumulator is
`(received_symbols, channel_coefficients, rng)`. -/
def mimoChannelStep {σ CVec CMat CSt FSt : Type} (M : MimoItpp σ CVec CMat CSt FSt)
    (transmit_bits : List Bool) (noise_variance energy_per_complex_symbol : ℚ)
    (acc : List CVec × List CMat × σ) (k : ℕ) : List CVec × List CMat × σ :=
  let channel_sample_index := k / mimo_nrof_coherent_samples
  let cs2 :=
    if k % mimo_nrof_coherent_samples == 0 then
      let h := M.randn_c_mat mimo_nrof_receive_antenna mimo_nrof_transmit_antenna acc.2.2
      ((acc.2.1).set channel_sample_index
        (M.smul_mat (M.sqrt energy_per_complex_symbol) h.1), h.2)
    else (acc.2.1, acc.2.2)
  let bits := vecMid transmit_bits (k * mimo_nrof_bits_per_channel_use)
    mimo_nrof_bits_per_channel_use
  let sym := M.modulate_bits bits
  let nc := M.randn_c_vec mimo_nrof_receive_antenna cs2.2
  let noise := M.smul_vec (M.sqrt noise_variance) nc.1
  ((acc.1).set k (M.mul_add (cs2.1.getD channel_sample_index M.cmat0) sym noise), cs2.1, nc.2)

/-- One step (channel use `k`) of the MIMO notebook's demodulation loop:
soft demodulation of `received_symbols[k]` against
`channel_coefficients[k / nrof_coherent_samples]` into the posterior
LLRs, written into `llr_in` at position `k * nrof_bits_per_channel_use`
via `set_subvector`.  The accumulator is `(llr_in, llr_posteriori)`. -/
def mimoDemodStep {σ CVec CMat CSt FSt : Type} (M : MimoItpp σ CVec CMat CSt FSt)
    (rs : List CVec) (cc : List CMat) (noise_variance : ℚ) (llr_priori : List ℤ)
    (acc : List ℤ × List ℤ) (k : ℕ) : List ℤ × List ℤ :=
  let channel_sample_index := k / mimo_nrof_coherent_samples
  let llr_posteriori := M.demodulate_soft_bits
    (rs.getD k M.cvec0) (cc.getD channel_sample_index M.cmat0)
    noise_variance llr_priori acc.2
  (vecSetSub acc.1 (k * mimo_nrof_bits_per_channel_use) llr_posteriori, llr_posteriori)

/-- One pass of the MIMO notebook's inner while-loop body (after the
`nrof_bits` update): random information bits, tail encoding, random
padding to a whole number of channel uses, interleaving, the
channel-generation loop over the channel uses (a new channel matrix
every `nrof_coherent_samples` uses), the demodulation loop assembling
`llr_in` from the per-use posterior LLRs via `set_subvector`,
deinterleaving, truncation to `nrof_coded_bits`, conversion to doubles,
tail decoding, and the three counter updates. -/
def mimoPass {σ CVec CMat CSt FSt : Type} (M : MimoItpp σ CVec CMat CSt FSt)
    (seq : List ℕ) (nrof_coded_bits nrof_channel_use nrof_transmit_bits : ℕ)
    (noise_variance energy_per_complex_symbol : ℚ)
    (st : MimoSt σ CVec CMat CSt FSt) : MimoSt σ CVec CMat CSt FSt :=
  let ib := M.randb (mimo_nrof_uncoded_bits : ℤ) st.rng
  let information_bits := ib.1
  let transmit_bits := M.encode_tail information_bits
  let pr := M.randb ((nrof_transmit_bits : ℤ) - (nrof_coded_bits : ℤ)) ib.2
  let transmit_bits := transmit_bits ++ pr.1
  let transmit_bits := M.interleave seq transmit_bits
  let chl := (List.range nrof_channel_use).foldl
    (mimoChannelStep M transmit_bits noise_variance energy_per_complex_symbol)
    (st.received_symbols, st.channel_coefficients, pr.2)
  let llr_priori := List.replicate mimo_nrof_bits_per_channel_use (0 : ℤ)
  let dl := (List.range nrof_channel_use).foldl
    (mimoDemodStep M chl.1 chl.2.1 noise_variance llr_priori)
    (List.replicate nrof_coded_bits (0 : ℤ),
     List.replicate mimo_nrof_bits_per_channel_use (0 : ℤ))
  let llr_in := dl.1
  let llr_deinterleaved := M.deinterleave seq llr_in 0
  let llr := M.to_double (vecLeft llr_deinterleaved nrof_coded_bits)
  let decoded_bits := M.decode_tail llr
  { received_symbols := chl.1,
    channel_coefficients := chl.2.1,
    ubc := M.berc_count transmit_bits (M.lt_zero llr_in) st.ubc,
    cbc := M.berc_count information_bits decoded_bits st.cbc,
    fec := M.blerc_count information_bits decoded_bits st.fec,
    rng := chl.2.2 }

/-- The early-termination test at the end of the while-loop body:
break when `nrof_bers > 0` and the coded bit-error count exceeds
`nrof_bers`, or when `nrof_fers > 0` and the frame-error count exceeds
`nrof_fers`. -/
def mimoBreak {σ CVec CMat CSt FSt : Type} (M : MimoItpp σ CVec CMat CSt FSt)
    (st : MimoSt σ CVec CMat CSt FSt) : Bool :=
  (decide (0 < mimo_nrof_bers) && decide (mimo_nrof_bers < M.berc_errors st.cbc))
  || (decide (0 < mimo_nrof_fers) && decide (mimo_nrof_fers < M.blerc_errors st.fec))

/-- The MIMO notebook's inner `while (nrof_bits < nrof_max_bits)` loop:
`nrof_bits` starts at 0 and grows by `nrof_uncoded_bits` with every pass;
each pass executes `body` and stops early when `brk` fires.  The second
component of the result counts how many times the loop body executed. -/
def mimoWhile {α : Type} (body : α → α) (brk : α → Bool)
    (nrof_bits iters : ℕ) (a : α) : α × ℕ :=
  if h : nrof_bits < mimo_nrof_max_bits then
    if brk (body a) then (body a, iters + 1)
    else mimoWhile body brk (nrof_bits + mimo_nrof_uncoded_bits) (iters + 1) (body a)
  else (a, iters)
termination_by mimo_nrof_max_bits - nrof_bits
decreasing_by
  simp only [mimo_nrof_max_bits, mimo_nrof_uncoded_bits] at *
  omega

/-- One point of the MIMO notebook's SNR loop: clear the three counters,
set `noise_variance = 10 ** (-0.1 * EbN0_db[snr_index])` and the symbol
energy, run the inner while-loop from `nrof_bits = 0`, and append the
three counters' `get_errorrate()` values to the result lists. -/
def mimoSnrPoint {σ CVec CMat CSt FSt : Type} (M : MimoItpp σ CVec CMat CSt FSt)
    (seq : List ℕ) (nrof_coded_bits nrof_channel_use nrof_transmit_bits : ℕ) (rate : ℚ)
    (acc : (List ℚ × List ℚ × List ℚ) × MimoSt σ CVec CMat CSt FSt) (ebn0 : ℚ) :
    (List ℚ × List ℚ × List ℚ) × MimoSt σ CVec CMat CSt FSt :=
  let st := acc.2
  let st := { st with ubc := M.berc_clear st.ubc, cbc := M.berc_clear st.cbc,
                      fec := M.blerc_clear st.fec }
  let energy_per_bit : ℚ := 1
  let noise_variance := M.pow10 ((-1 / 10) * ebn0)
  let energy_per_complex_symbol :=
    rate * 2 * (mimo_constellation_index : ℚ) * energy_per_bit
  let r := mimoWhile
    (mimoPass M seq nrof_coded_bits nrof_channel_use nrof_transmit_bits
      noise_variance energy_per_complex_symbol)
    (mimoBreak M) 0 0 st
  let st := r.1
  ((acc.1.1 ++ [M.berc_errorrate st.ubc],
    acc.1.2.1 ++ [M.berc_errorrate st.cbc],
    acc.1.2.2 ++ [M.blerc_errorrate st.fec]), st)

/-- The MIMO notebook, executed from an arbitrary initial RNG state `s0`:
coder setup with a dummy tail encoding measuring `nrof_coded_bits`
(consuming the RNG before the reset), derived modulation parameters,
randomization of the interleaver sequence (consuming the RNG before the
reset — both interleavers then share the sequence `seq`),
`itpp.random.RNG_reset(42)`, allocation of the result arrays and
counters, and the SNR loop over the 21 `EbN0_db` points.  Returns the
`(uncoded_bit_error_rate, coded_bit_error_rate, frame_error_rate)`
lists. -/
def mimoRun {σ CVec CMat CSt FSt : Type} (M : MimoItpp σ CVec CMat CSt FSt)
    (s0 : σ) : List ℚ × List ℚ × List ℚ :=
  let db := M.randb (mimo_nrof_uncoded_bits : ℤ) s0
  let nrof_coded_bits := (M.encode_tail db.1).length
  let rate : ℚ := (mimo_nrof_uncoded_bits : ℚ) / (nrof_coded_bits : ℚ)
  let nrof_channel_use := nrof_coded_bits / mimo_nrof_bits_per_channel_use
  let nrof_transmit_bits := mimo_nrof_bits_per_channel_use * nrof_channel_use
  let rsq := M.randomize_interleaver_sequence nrof_coded_bits db.2
  let seq := rsq.1
  let s := M.RNG_reset 42
  let nrof_channel_samples := nrof_channel_use / mimo_nrof_coherent_samples + 1
  let st0 : MimoSt σ CVec CMat CSt FSt := {
    received_symbols := List.replicate nrof_channel_use M.cvec0,
    channel_coefficients := List.replicate nrof_channel_samples M.cmat0,
    ubc := M.berc0, cbc := M.berc0, fec := M.blerc0 mimo_nrof_uncoded_bits,
    rng := s }
  let res := mimoEbN0.foldl
    (mimoSnrPoint M seq nrof_coded_bits nrof_channel_use nrof_transmit_bits rate)
    (([], [], []), st0)
  res.1

/-!
A concrete environment for the MIMO model.  The external library is
opaque to the repository, so any behaviour of the opaque routines that
respects their interfaces is admissible.  `M0` draws all-zero bit blocks,
produces a rate-1/3-shaped tail-coded block (length `3 * n + 18` for an
`n`-bit input, hence 3018 coded bits for 1000 information bits, matching
the recorded notebook run), and makes the randomized interleaver
sequence depend on the current RNG state — which is exactly what the
notebook's pre-reset call `randomize_interleaver_sequence()` permits.
The demodulator marks every transmitted position with LLR 1, and the
decoder's output depends on the first LLR it receives, so the frame
error statistic records whether the deinterleaver (keyed by the
randomized sequence) was the identity or the reversal. -/
def M0 : MimoItpp ℕ Unit Unit ℕ ℕ where
  RNG_reset _ := 0
  randb n s := (List.replicate n.toNat false, s)
  encode_tail b := b ++ List.replicate (2 * b.length + 18) false
  decode_tail llr :=
    if llr.head? = some 1 then List.replicate mimo_nrof_uncoded_bits true
    else List.replicate mimo_nrof_uncoded_bits false
  randomize_interleaver_sequence _ s := ([s % 2], s)
  interleave _ v := v
  deinterleave sq v _ := if sq.head? = some 0 then v else v.reverse
  modulate_bits _ := ()
  demodulate_soft_bits _ _ _ _ _ := List.replicate mimo_nrof_bits_per_channel_use 1
  to_double l := l.map (fun z => if 0 < z then (1 : ℚ) else 0)
  lt_zero l := l.map (fun z => decide (z < 0))
  randn_c_vec _ s := ((), s)
  randn_c_mat _ _ s := ((), s)
  smul_mat _ _ := ()
  smul_vec _ _ := ()
  mul_add _ _ _ := ()
  pow10 _ := 1
  sqrt _ := 1
  cvec0 := ()
  cmat0 := ()
  berc0 := 0
  berc_clear _ := 0
  berc_count _ _ c := c
  berc_errors c := (c : ℤ)
  berc_errorrate c := (c : ℚ)
  blerc0 _ := 0
  blerc_clear _ := 0
  blerc_count a b c := if a = b then c else c + 1
  blerc_errors c := (c : ℤ)
  blerc_errorrate c := (c : ℚ)

/-- Setting any element of a list of units gives back the list. -/
theorem unitList_set (l : List Unit) (k : ℕ) : l.set k () = l := by
  induction l generalizing k with
  | nil => rfl
  | cons a t ih =>
    cases k with
    | zero => cases a; rfl
    | succ k => simp [List.set, ih]

/-- A fold whose step fixes every accumulator is the identity. -/
theorem foldl_const {α β : Type} (f : α → β → α) (h : ∀ a b, f a b = a)
    (a : α) (l : List β) : l.foldl f a = a := by
  induction l generalizing a with
  | nil => rfl
  | cons b t ih => rw [List.foldl_cons, h, ih]

/-- A fold whose step's first component depends only on the first
component projects to a fold on first components. -/
theorem foldl_fst {α β γ : Type} (f : α × β → γ → α × β) (g : α → γ → α)
    (hf : ∀ x c, (f x c).1 = g x.1 c) (x : α × β) (l : List γ) :
    (l.foldl f x).1 = l.foldl g x.1 := by
  induction l generalizing x with
  | nil => rfl
  | cons c t ih => rw [List.foldl_cons, List.foldl_cons, ih, hf]

/-- `nrof_bits_per_channel_use` evaluates to 8. -/
theorem mimo_bits_per_use : mimo_nrof_bits_per_channel_use = 8 := rfl

/-- At `M0` every channel-generation step fixes the accumulator: the
carrier types are trivial and none of `M0`'s draws moves the RNG
state. -/
theorem M0_chanStep_id (tb : List Bool) (nv epcs : ℚ)
    (acc : List Unit × List Unit × ℕ) (k : ℕ) :
    mimoChannelStep M0 tb nv epcs acc k = acc := by
  obtain ⟨rs, cc, s⟩ := acc
  simp [mimoChannelStep, M0, unitList_set]

/-- At `M0` the channel-generation loop is the identity. -/
theorem M0_chanFold (tb : List Bool) (nv epcs : ℚ)
    (x : List Unit × List Unit × ℕ) (n : ℕ) :
    (List.range n).foldl (mimoChannelStep M0 tb nv epcs) x = x :=
  foldl_const _ (fun a b => M0_chanStep_id tb nv epcs a b) x _

/-- At `M0` the demodulation step writes the constant posterior block
`replicate 8 1` at position `k * 8` of `llr_in`. -/
theorem M0_demodStep_fst (rs cc : List Unit) (nv : ℚ) (pri : List ℤ)
    (x : List ℤ × List ℤ) (k : ℕ) :
    (mimoDemodStep M0 rs cc nv pri x k).1
    = vecSetSub x.1 (k * 8) (List.replicate 8 1) := by
  simp [mimoDemodStep, M0, mimo_bits_per_use]

/-- Overwriting the 8 entries that follow the first `m` ones extends the
block of ones. -/
theorem vecSetSub_replicate (m r : ℕ) :
    vecSetSub (List.replicate m (1 : ℤ) ++ List.replicate r 0) m (List.replicate 8 1)
    = List.replicate (m + 8) 1 ++ List.replicate (r - 8) 0 := by
  have h1 : m - (m + 8) = 0 := by omega
  have h2 : m + 8 - m = 8 := by omega
  simp only [vecSetSub, List.length_replicate,
    List.take_append_eq_append_take, List.drop_append_eq_append_drop,
    List.take_replicate, List.drop_replicate, Nat.min_self, Nat.sub_self, h1, h2,
    Nat.zero_min, List.replicate_zero, List.append_nil, List.nil_append,
    List.replicate_add, List.append_assoc]

/-- The demodulation loop writes ones into the first `8 * n` positions of
the cleared `llr_in` vector. -/
theorem M0_llrAux : ∀ n, n ≤ 377 →
    (List.range n).foldl
      (fun (L : List ℤ) k => vecSetSub L (k * 8) (List.replicate 8 1))
      (List.replicate 3018 0)
    = List.replicate (8 * n) 1 ++ List.replicate (3018 - 8 * n) 0 := by
  intro n hn
  induction n with
  | zero =>
    simp only [List.range_zero, List.foldl_nil, Nat.mul_zero, Nat.sub_zero,
      List.replicate_zero, List.nil_append]
  | succ m ih =>
    rw [List.range_succ, List.foldl_append, ih (by omega)]
    simp only [List.foldl_cons, List.foldl_nil]
    rw [show m * 8 = 8 * m by ring, vecSetSub_replicate]
    have e1 : 8 * m + 8 = 8 * (m + 1) := by ring
    have e2 : 3018 - 8 * m - 8 = 3018 - 8 * (m + 1) := by omega
    rw [e1, e2]

/-- The head of a nonempty replicate block, before anything appended. -/
theorem head?_replicate_append {α : Type} (n : ℕ) (hn : n ≠ 0) (a : α) (l : List α) :
    (List.replicate n a ++ l).head? = some a := by
  cases n with
  | zero => exact absurd rfl hn
  | succ m => simp [List.replicate_succ]

/-- Taking 3018 elements of a list of at most 3018 keeps it intact. -/
theorem take3018_replicate_append {α : Type} {m r : ℕ} (h : m + r ≤ 3018) {a b : α} :
    (List.replicate m a ++ List.replicate r b).take 3018
    = List.replicate m a ++ List.replicate r b := by
  apply List.take_of_length_le
  simp only [List.length_append, List.length_replicate]
  omega

/-- At `M0`, 377 demodulation steps assemble
`llr_in = replicate 3016 1 ++ replicate 2 0`: positions `0..3015` carry
the constant posterior LLR 1 and the two positions beyond
`nrof_transmit_bits = 3016` keep the cleared value 0. -/
theorem M0_llr_in (rs cc : List Unit) (nv : ℚ) (pri : List ℤ) :
    ((List.range 377).foldl (mimoDemodStep M0 rs cc nv pri)
      (List.replicate 3018 0, List.replicate 8 0)).1
    = List.replicate 3016 1 ++ List.replicate 2 0 := by
  rw [foldl_fst (mimoDemodStep M0 rs cc nv pri)
    (fun L k => vecSetSub L (k * 8) (List.replicate 8 1))
    (fun x c => M0_demodStep_fst rs cc nv pri x c)]
  exact M0_llrAux 377 le_rfl

set_option maxRecDepth 4000 in
/-- At `M0` with the identity-selecting interleaver sequence `[0]`, a
while-loop pass decodes to the all-ones block (the first LLR handed to
the decoder is the flipped-in 1), so the frame-error counter increments:
the pass depends on the interleaver sequence drawn before the RNG
reset. -/
theorem M0_pass_zero (nv epcs : ℚ) (st : MimoSt ℕ Unit Unit ℕ ℕ) :
    mimoPass M0 [0] 3018 377 3016 nv epcs st = { st with fec := st.fec + 1 } := by
  obtain ⟨rs0, cc0, u0, c0, f0, s0⟩ := st
  simp only [mimoPass, mimo_bits_per_use]
  simp only [M0_chanFold]
  simp only [M0_llr_in]
  simp only [M0]
  simp only [vecLeft]
  simp only [List.head?_cons]
  simp only [reduceIte]
  rw [take3018_replicate_append (by norm_num)]
  simp only [List.map_append, List.map_replicate]
  norm_num
  rw [show (3016 : ℕ) = 3015 + 1 from rfl, List.replicate_succ]
  rw [List.head?_cons, if_pos rfl, List.replicate_right_inj']
  decide

set_option maxRecDepth 4000 in
/-- At `M0` with the reversal-selecting interleaver sequence `[1]`, a
while-loop pass decodes to the all-zero information block (the first LLR
handed to the decoder is a cleared 0), so the frame-error counter does
not move. -/
theorem M0_pass_one (nv epcs : ℚ) (st : MimoSt ℕ Unit Unit ℕ ℕ) :
    mimoPass M0 [1] 3018 377 3016 nv epcs st = st := by
  obtain ⟨rs0, cc0, u0, c0, f0, s0⟩ := st
  simp only [mimoPass, mimo_bits_per_use]
  simp only [M0_chanFold]
  simp only [M0_llr_in]
  simp only [M0]
  simp only [vecLeft]
  simp only [List.head?_cons, Option.some.injEq, reduceIte]
  rw [if_neg (show ¬(1 : ℕ) = 0 by norm_num)]
  rw [List.reverse_append, List.reverse_replicate, List.reverse_replicate]
  rw [take3018_replicate_append (by norm_num)]
  simp only [List.map_append, List.map_replicate]
  norm_num
  rw [show (2 : ℕ) = 1 + 1 from rfl, List.replicate_succ]
  rw [List.head?_cons]
  norm_num

/-- At `M0` the early-termination test never fires while the frame-error
count is at most `nrof_fers = 200` (and `nrof_bers = -1` disables the
bit-error test). -/
theorem M0_break_false (st : MimoSt ℕ Unit Unit ℕ ℕ) (h : st.fec ≤ 200) :
    mimoBreak M0 st = false := by
  simp only [mimoBreak, mimo_nrof_bers, mimo_nrof_fers, mimo_nrof_coherent_samples, M0]
  norm_num
  omega

/-- Running the while loop with a body that adds `d` frame errors per
pass: starting from `nrof_bits = 1000 * (50 - k)` the loop executes
exactly `k` more passes and accumulates `k * d` frame errors. -/
theorem M0_while (d : ℕ)
    (body : MimoSt ℕ Unit Unit ℕ ℕ → MimoSt ℕ Unit Unit ℕ ℕ)
    (hb : ∀ st, body st = { st with fec := st.fec + d }) :
    ∀ k, k ≤ 50 → ∀ (st : MimoSt ℕ Unit Unit ℕ ℕ) (it : ℕ),
      st.fec + k * d ≤ 200 →
      mimoWhile body (mimoBreak M0) (1000 * (50 - k)) it st
        = ({ st with fec := st.fec + k * d }, it + k) := by
  intro k
  induction k with
  | zero =>
    intro _ st it _
    rw [mimoWhile]
    norm_num [mimo_nrof_max_bits]
  | succ k ih =>
    intro hk st it hfec
    have hexp : (k + 1) * d = k * d + d := by ring
    rw [hexp] at hfec
    rw [mimoWhile, dif_pos (by simp only [mimo_nrof_max_bits]; omega), hb,
      M0_break_false _ (by show st.fec + d ≤ 200; omega)]
    simp only [Bool.false_eq_true, if_false]
    have harg : 1000 * (50 - (k + 1)) + mimo_nrof_uncoded_bits = 1000 * (50 - k) := by
      simp only [mimo_nrof_uncoded_bits]; omega
    rw [harg, ih (by omega) _ (it + 1) (by show st.fec + d + k * d ≤ 200; omega)]
    have hfe : st.fec + d + k * d = st.fec + (k + 1) * d := by ring
    simp only [hfe]
    have hit : it + 1 + k = it + (k + 1) := by omega
    rw [hit]

/-- The `RNG_reset` model of `M0`. -/
theorem M0_reset (z : ℤ) : M0.RNG_reset z = 0 := rfl

/-- The `randb` model of `M0`. -/
theorem M0_randb (n : ℤ) (s : ℕ) : M0.randb n s = (List.replicate n.toNat false, s) := rfl

/-- The `randomize_interleaver_sequence` model of `M0`. -/
theorem M0_rand_seq (n s : ℕ) :
    M0.randomize_interleaver_sequence n s = ([s % 2], s) := rfl

/-- The coded-block length produced by the `encode_tail` model of `M0`. -/
theorem M0_encode_len (b : List Bool) :
    (M0.encode_tail b).length = 3 * b.length + 18 := by
  simp only [M0, List.length_append, List.length_replicate]
  ring

/-- The fresh-counter models of `M0`. -/
theorem M0_berc0 : M0.berc0 = 0 := rfl

/-- The fresh block-error-counter model of `M0`. -/
theorem M0_blerc0 (n : ℕ) : M0.blerc0 n = 0 := rfl

/-- The empty-`cvec` model of `M0`. -/
theorem M0_cvec0 : M0.cvec0 = () := rfl

/-- The empty-`cmat` model of `M0`. -/
theorem M0_cmat0 : M0.cmat0 = () := rfl

/-- The `BERC.clear()` model of `M0`. -/
theorem M0_berc_clear (c : ℕ) : M0.berc_clear c = 0 := rfl

/-- The `BLERC.clear()` model of `M0`. -/
theorem M0_blerc_clear (c : ℕ) : M0.blerc_clear c = 0 := rfl

/-- The `BERC.get_errorrate()` model of `M0`. -/
theorem M0_berc_rate (c : ℕ) : M0.berc_errorrate c = (c : ℚ) := rfl

/-- The `BLERC.get_errorrate()` model of `M0`. -/
theorem M0_blerc_rate (c : ℕ) : M0.blerc_errorrate c = (c : ℚ) := rfl

/-- The full inner while loop at `M0` from `nrof_bits = 0`: exactly 50
passes, each adding `d` frame errors. -/
theorem M0_while50 {body : MimoSt ℕ Unit Unit ℕ ℕ → MimoSt ℕ Unit Unit ℕ ℕ}
    (d : ℕ) (hb : ∀ st, body st = { st with fec := st.fec + d })
    (st : MimoSt ℕ Unit Unit ℕ ℕ) (h : st.fec + 50 * d ≤ 200) :
    mimoWhile body (mimoBreak M0) 0 0 st
      = ({ st with fec := st.fec + 50 * d }, 50) :=
  M0_while d body hb 50 le_rfl st 0 h

/-- One SNR point at `M0` with the identity-selecting sequence: all 50
passes record a frame error, so the appended error rates are
`(0, 0, 50)`. -/
theorem M0_point_zero (r1 r2 r3 : List ℚ) (st : MimoSt ℕ Unit Unit ℕ ℕ)
    (rate ebn0 : ℚ) :
    mimoSnrPoint M0 [0] 3018 377 3016 rate ((r1, r2, r3), st) ebn0
    = ((r1 ++ [0], r2 ++ [0], r3 ++ [50]),
       { st with ubc := 0, cbc := 0, fec := 50 }) := by
  obtain ⟨rs0, cc0, u0, c0, f0, s0⟩ := st
  simp only [mimoSnrPoint, M0_berc_clear, M0_blerc_clear]
  rw [M0_while50 1 (M0_pass_zero _ _) _ (by norm_num)]
  simp only [M0_berc_rate, M0_blerc_rate]
  norm_num

/-- One SNR point at `M0` with the reversal-selecting sequence: no pass
records an error, so the appended error rates are `(0, 0, 0)`. -/
theorem M0_point_one (r1 r2 r3 : List ℚ) (st : MimoSt ℕ Unit Unit ℕ ℕ)
    (rate ebn0 : ℚ) :
    mimoSnrPoint M0 [1] 3018 377 3016 rate ((r1, r2, r3), st) ebn0
    = ((r1 ++ [0], r2 ++ [0], r3 ++ [0]),
       { st with ubc := 0, cbc := 0, fec := 0 }) := by
  obtain ⟨rs0, cc0, u0, c0, f0, s0⟩ := st
  simp only [mimoSnrPoint, M0_berc_clear, M0_blerc_clear]
  rw [M0_while50 0 (fun st2 => by rw [M0_pass_one]; simp) _ (by norm_num)]
  simp only [M0_berc_rate, M0_blerc_rate]
  norm_num

/-- The SNR loop at `M0`, identity-selecting sequence: every point
appends `(0, 0, 50)`. -/
theorem M0_fold_zero (rate : ℚ) : ∀ (pts : List ℚ) (r1 r2 r3 : List ℚ)
    (st : MimoSt ℕ Unit Unit ℕ ℕ),
    (pts.foldl (mimoSnrPoint M0 [0] 3018 377 3016 rate) ((r1, r2, r3), st)).1
    = (r1 ++ List.replicate pts.length 0, r2 ++ List.replicate pts.length 0,
       r3 ++ List.replicate pts.length 50) := by
  intro pts
  induction pts with
  | nil => intro r1 r2 r3 st; simp
  | cons p t ih =>
    intro r1 r2 r3 st
    rw [List.foldl_cons, M0_point_zero, ih]
    simp [List.replicate_succ]

/-- The SNR loop at `M0`, reversal-selecting sequence: every point
appends `(0, 0, 0)`. -/
theorem M0_fold_one (rate : ℚ) : ∀ (pts : List ℚ) (r1 r2 r3 : List ℚ)
    (st : MimoSt ℕ Unit Unit ℕ ℕ),
    (pts.foldl (mimoSnrPoint M0 [1] 3018 377 3016 rate) ((r1, r2, r3), st)).1
    = (r1 ++ List.replicate pts.length 0, r2 ++ List.replicate pts.length 0,
       r3 ++ List.replicate pts.length 0) := by
  intro pts
  induction pts with
  | nil => intro r1 r2 r3 st; simp
  | cons p t ih =>
    intro r1 r2 r3 st
    rw [List.foldl_cons, M0_point_one, ih]
    simp [List.replicate_succ]

/-- The complete MIMO notebook run at `M0` from pre-reset RNG state 0:
the interleaver sequence drawn before the reset is `[0]`, and the
reported frame error rate is 1 (50 errors in 50 frames, recorded by the
counter as 50) at all 21 SNR points. -/
theorem M0_run_zero : mimoRun M0 0
    = (List.replicate 21 0, List.replicate 21 0, List.replicate 21 50) := by
  simp only [mimoRun, M0_randb, M0_reset, M0_rand_seq, M0_encode_len, M0_berc0,
    M0_blerc0, M0_cvec0, M0_cmat0, mimo_nrof_uncoded_bits, mimo_bits_per_use,
    mimo_nrof_coherent_samples, Int.toNat_ofNat, List.length_replicate]
  norm_num
  rw [M0_fold_zero]
  rw [show mimoEbN0.length = 21 by rw [mimoEbN0, List.length_map, List.length_range]]
  simp only [List.nil_append]

/-- The complete MIMO notebook run at `M0` from pre-reset RNG state 1:
the interleaver sequence drawn before the reset is `[1]`, and the
reported frame error rate is 0 at all 21 SNR points. -/
theorem M0_run_one : mimoRun M0 1
    = (List.replicate 21 0, List.replicate 21 0, List.replicate 21 0) := by
  simp only [mimoRun, M0_randb, M0_reset, M0_rand_seq, M0_encode_len, M0_berc0,
    M0_blerc0, M0_cvec0, M0_cmat0, mimo_nrof_uncoded_bits, mimo_bits_per_use,
    mimo_nrof_coherent_samples, Int.toNat_ofNat, List.length_replicate]
  norm_num
  rw [M0_fold_one]
  rw [show mimoEbN0.length = 21 by rw [mimoEbN0, List.length_map, List.length_range]]
  simp only [List.nil_append]

/-- The iteration count of the inner while loop: starting from
`nrof_bits = nb`, at most `fuel` more passes run when
`nrof_max_bits - nb` is covered by `fuel` increments. -/
theorem mimoWhile_le {α : Type} (body : α → α) (brk : α → Bool) :
    ∀ (fuel nb it : ℕ) (a : α),
      mimo_nrof_max_bits - nb ≤ fuel * mimo_nrof_uncoded_bits →
      (mimoWhile body brk nb it a).2 ≤ it + fuel := by
  intro fuel
  induction fuel with
  | zero =>
    intro nb it a h
    simp only [mimo_nrof_max_bits, mimo_nrof_uncoded_bits] at h
    rw [mimoWhile, dif_neg (by simp only [mimo_nrof_max_bits]; omega)]
    show it ≤ it + 0
    omega
  | succ f ih =>
    intro nb it a h
    simp only [mimo_nrof_max_bits, mimo_nrof_uncoded_bits] at h
    rw [mimoWhile]
    by_cases h1 : nb < mimo_nrof_max_bits
    · rw [dif_pos h1]
      cases hbr : brk (body a) with
      | true =>
        rw [if_pos rfl]
        show it + 1 ≤ it + (f + 1)
        omega
      | false =>
        rw [if_neg Bool.false_ne_true]
        have := ih (nb + mimo_nrof_uncoded_bits) (it + 1) (body a)
          (by simp only [mimo_nrof_max_bits, mimo_nrof_uncoded_bits]; omega)
        omega
    · rw [dif_neg h1]
      show it ≤ it + (f + 1)
      omega

/-!
Claim theorems.
-/

open PyExpr PyStmt in
/-- The OFDM notebook saves the channel magnitude and per-channel-use
transmission-success arrays to the file `datafile.npy`. -/
def savesOfdmData (nb : List PyStmt) : Bool :=
  stmtsContainWhere (fun s =>
    match s with
    | .exprS (.call g [.strLit f, .dictLit ks vs]) =>
      g == "np.save" && f == "datafile.npy"
        && ks == ["channel_magnitude", "transmission_success"]
        && exprsEq vs [name "channel_magnitude", name "transmission_success"]
    | _ => false) nb

open PyExpr PyStmt in
/-- The notebook plots `y` against `x` on a logarithmic axis via
`plt.semilogy(x, y)`. -/
def plotsSemilogy (x y : String) (nb : List PyStmt) : Bool :=
  stmtsContainWhere (fun s =>
    match s with
    | .exprS (.call g [a, b]) =>
      g == "plt.semilogy" && exprEq a (name x) && exprEq b (name y)
    | _ => false) nb

/-- C1, as stated, is false: not every reported error-rate statistic is a
counter's `get_errorrate()` value — the OFDM notebook's `error_rate` is
local arithmetic (`1.0 - np.mean(np.array(success))`), not a
`BERC`/`BLERC` call. -/
theorem claim_C1_counterexample :
    ¬ (errorStatistics.all
        (fun st => isCounterGetErrorrate (nbOf st.notebook) st.defn) = true) := by
  decide

/-- C1, amended: every error statistic of the convolutional-coding and
MIMO notebooks is the `get_errorrate()` value of an
`itpp.comm.BERC`/`itpp.comm.BLERC` counter object, and the one exception
is the OFDM notebook's `error_rate`, which is computed by local
arithmetic; each table entry is the statistic's defining expression in
its notebook. -/
theorem claim_C1 :
    errorStatistics.all statOccurs = true
    ∧ (errorStatistics.filter (fun st => st.notebook != "ofdm")).all
        (fun st => isCounterGetErrorrate (nbOf st.notebook) st.defn) = true
    ∧ (errorStatistics.filter (fun st => st.notebook == "ofdm")).all
        (fun st => isLocalArith st.defn
          && !(isCounterGetErrorrate (nbOf st.notebook) st.defn)) = true
    ∧ (errorStatistics.filter (fun st => st.notebook == "ofdm")).length = 1 := by
  refine ⟨by decide, by decide, by decide, by decide⟩

/-- C2, as stated, is false: no notebook contains both a bit-interleaver
invocation and an inverse-FFT invocation, so no notebook's transmit
chain passes coded bits through a bit interleaver before loading them
onto OFDM subcarriers. -/
theorem claim_C2_counterexample :
    ¬ ∃ nb ∈ notebookList,
      stmtsHaveCall "interleave" nb = true
      ∧ stmtsHaveCall "itpp.signal.ifft" nb = true := by
  decide

/-- C2, amended: exactly one notebook (the OFDM notebook) simulates coded
modulation over OFDM: in its simulation-loop body the convolutionally
coded bits (`encode_tail`, statement 1) are modulated (`modulate_bits`,
statement 3) and loaded onto OFDM subcarriers via the inverse FFT
(`itpp.signal.ifft`, statement 4), but no bit interleaver appears
anywhere in that notebook. -/
theorem claim_C2 :
    notebookList.map (stmtsHaveCall "itpp.signal.ifft") = [true, false, false]
    ∧ pyFindIdx (assignsFromCall "code_bits" "encode_tail")
        (firstLoopBody ofdmNotebook) = some 1
    ∧ pyFindIdx (assignsFromCall "modulated_symbols" "modulate_bits")
        (firstLoopBody ofdmNotebook) = some 3
    ∧ pyFindIdx (assignsFromCall "ofdm_symbols" "itpp.signal.ifft")
        (firstLoopBody ofdmNotebook) = some 4
    ∧ stmtsHaveCall "interleave" ofdmNotebook = false := by
  refine ⟨by decide, by decide, by decide, by decide, by decide⟩

/-- C3, as stated, is false: not every notebook hands its convolutional
decoder the output of a soft demodulator — the convolutional-coding
notebook invokes `conv_code.decode` but contains no
`demodulate_soft_bits` call at all (its decoder consumes the AWGN
channel output directly). -/
theorem claim_C3_counterexample :
    ¬ (∀ nb ∈ notebookList,
        (stmtsHaveCall "decode" nb || stmtsHaveCall "decode_tail" nb) = true →
        stmtsHaveCall "demodulate_soft_bits" nb = true) := by
  decide

open PyExpr PyStmt in
/-- C3, amended: in the two notebooks with a demodulation stage the soft
values handed to the convolutional decoder are the demodulator's output
and every operation on them is an `itpp` library call — in the OFDM
notebook `decode_tail` consumes `demodulated_soft_values`, which is
assigned from `modulator.demodulate_soft_bits` and only touched by
library operations, and in the MIMO notebook `decode_tail` consumes
`llr`, obtained from the posterior LLRs through `set_subvector`,
`deinterleave`, `left` and `get_llrcalc().to_double`, all library
operations — while the convolutional-coding notebook passes the AWGN
channel output `channel(transmitted_symbols)` to `decode` directly,
with no demodulation stage. -/
theorem claim_C3 :
    stmtsContainWhere (fun s =>
      match s with
      | .assign y e => y == "decoded_bits"
          && exprEq e (method (name "conv_code") "decode_tail"
              [name "demodulated_soft_values"])
      | _ => false) ofdmNotebook = true
    ∧ (match firstAssign "demodulated_soft_values" ofdmNotebook with
       | some (.method (.name "modulator") "demodulate_soft_bits" _) => true
       | _ => false) = true
    ∧ (stmtsOpsOn "demodulated_soft_values" ofdmNotebook).all isItppOp = true
    ∧ stmtsContainWhere (fun s =>
      match s with
      | .exprS e => exprEq e (method (name "conv_code") "decode_tail"
          [name "llr", name "decoded_bits"])
      | _ => false) mimoNotebook = true
    ∧ (match firstAssign "llr" mimoNotebook with
       | some (.method (.method (.name "mimo_modulator") "get_llrcalc" _) "to_double" _) => true
       | _ => false) = true
    ∧ (["llr", "llr_deinterleaved", "llr_in", "llr_posteriori"]).all
        (fun x => (stmtsOpsOn x mimoNotebook).all isItppOp) = true
    ∧ (match firstAssign "received_symbols" convcodeNotebook with
       | some (.call "channel" [.name "transmitted_symbols"]) => true
       | _ => false) = true
    ∧ stmtsHaveCall "demodulate_soft_bits" convcodeNotebook = false := by
  refine ⟨by decide, by decide, by decide, by decide, by decide, by decide, by decide, by decide⟩

/-- C4: each of the three schemes is configured and simulated by some
notebook — the convolutional-coding notebook constructs
`itpp.comm.Convolutional_Code`, sets its generator polynomials and runs
a loop invoking `encode` and `decode`; the MIMO notebook constructs
`itpp.comm.ND_UQAM` and runs a loop invoking `demodulate_soft_bits`;
the OFDM notebook constructs the ITU Vehicular-A
`itpp.comm.Channel_Specification` and `itpp.comm.TDL_Channel`
(a frequency-selective fading channel) and runs a loop invoking
`itpp.signal.ifft`, `itpp.signal.fft` and `itpp.elem_mult`. -/
theorem claim_C4 :
    (firstAssignIsCall convcodeNotebook "conv_code" "itpp.comm.Convolutional_Code"
      && stmtsHaveCall "set_generator_polynomials" convcodeNotebook
      && stmtsLoopWithCall "encode" convcodeNotebook
      && stmtsLoopWithCall "decode" convcodeNotebook) = true
    ∧ (firstAssignIsCall mimoNotebook "mimo_modulator" "itpp.comm.ND_UQAM"
      && stmtsLoopWithCall "demodulate_soft_bits" mimoNotebook) = true
    ∧ (firstAssignIsCall ofdmNotebook "channel_model" "itpp.comm.Channel_Specification"
      && firstAssignIsCall ofdmNotebook "channel" "itpp.comm.TDL_Channel"
      && stmtsLoopWithCall "itpp.signal.ifft" ofdmNotebook
      && stmtsLoopWithCall "itpp.signal.fft" ofdmNotebook
      && stmtsLoopWithCall "itpp.elem_mult" ofdmNotebook) = true := by
  refine ⟨by decide, by decide, by decide⟩

/-- C5: the notebooks define no function or class of their own, and every
occurrence of the named algorithms — Viterbi decoding (`decode`,
`decode_tail`), MIMO soft demodulation (`demodulate_soft_bits`) and
channel synthesis (`generate`, plus the AWGN channel object call) — is a
method invocation on an object constructed by an `itpp.*` constructor,
never a plain call of a locally defined routine. -/
theorem claim_C5 :
    notebookList.map stmtsHaveDef = [false, false, false]
    ∧ (["decode", "decode_tail", "demodulate_soft_bits", "generate"]).all (fun m =>
        notebookList.all (fun nb =>
          (stmtsMethodRecvs m nb).all (firstAssignIsItpp nb)
            && !(stmtsHaveFnCall m nb))) = true
    ∧ firstAssignIsCall convcodeNotebook "channel" "itpp.comm.AWGN_Channel" = true := by
  refine ⟨by decide, by decide, by decide⟩

/-- C6: in the OFDM notebook's loop, with the measured
`nrof_coded_bits = 258` and `nrof_transmit_bits = 256`, the soft-value
vector passed to `decode_tail` (the demodulator's one-soft-value-per-
subcarrier output, zero-padded at position `nrof_transmit_bits`) has
length exactly `nrof_coded_bits`, and since the coded block is longer
than `nrof_transmit_bits`, only its first `nrof_transmit_bits` bits are
transmitted. -/
theorem claim_C6 (code_bits : List Bool) (ds : List ℚ)
    (hcb : code_bits.length = ofdm_nrof_coded_bits)
    (hds : ds.length = ofdm_nrof_subcarriers) :
    (ofdmPad ofdm_nrof_coded_bits ds).length = ofdm_nrof_coded_bits
    ∧ ofdmTransmitBits code_bits = vecLeft code_bits ofdm_nrof_transmit_bits := by
  constructor
  · rw [ofdmPad, if_pos (by norm_num [ofdm_nrof_coded_bits, ofdm_nrof_transmit_bits,
      ofdm_nrof_subcarriers, ofdm_modulation_order])]
    simp only [vecIns, vecZeros, List.length_append, List.length_take,
      List.length_replicate, List.length_drop, hds, ofdm_nrof_coded_bits,
      ofdm_nrof_transmit_bits, ofdm_nrof_subcarriers, ofdm_modulation_order]
    norm_num
  · rw [ofdmTransmitBits, if_pos (by rw [hcb]; norm_num [ofdm_nrof_coded_bits,
      ofdm_nrof_transmit_bits, ofdm_nrof_subcarriers, ofdm_modulation_order])]

/-- C6 witness: a concrete 258-bit coded block and 256 demodulated soft
values. -/
theorem claim_C6_witness :
    (ofdmPad ofdm_nrof_coded_bits (List.replicate 256 (0 : ℚ))).length
      = ofdm_nrof_coded_bits
    ∧ ofdmTransmitBits (List.replicate 258 false)
      = vecLeft (List.replicate 258 false) ofdm_nrof_transmit_bits :=
  claim_C6 (List.replicate 258 false) (List.replicate 256 0)
    (by rw [List.length_replicate]; rfl)
    (by rw [List.length_replicate]; rfl)

/-- C7: for every SNR point of the MIMO notebook, the inner
`while (nrof_bits < nrof_max_bits)` loop terminates: whatever the loop
body and break condition do, the body executes at most
`nrof_max_bits / nrof_uncoded_bits = 50` times, and when the break
condition fires on the first pass the loop stops after that single
pass. -/
theorem claim_C7 :
    (∀ (α : Type) (body : α → α) (brk : α → Bool) (a : α),
      (mimoWhile body brk 0 0 a).2 ≤ mimo_nrof_max_bits / mimo_nrof_uncoded_bits)
    ∧ (∀ (α : Type) (body : α → α) (a : α),
      (mimoWhile body (fun _ => true) 0 0 a).2 = 1) := by
  constructor
  · intro α body brk a
    exact mimoWhile_le body brk 50 0 0 a
      (by simp [mimo_nrof_max_bits, mimo_nrof_uncoded_bits])
  · intro α body a
    rw [mimoWhile, dif_pos (by norm_num [mimo_nrof_max_bits]), if_pos rfl]

/-- C8, as stated, is false: the MIMO notebook randomizes its interleaver
sequence before the `RNG_reset(42)`, so two executions differing only in
the RNG state before the reset can report different error statistics.
In the environment `M0` (one admissible behaviour of the opaque
library), pre-reset states 0 and 1 yield frame-error counts 50 and 0 at
every SNR point. -/
theorem claim_C8_counterexample : mimoRun M0 0 ≠ mimoRun M0 1 := by
  rw [M0_run_zero, M0_run_one]
  intro h
  have h3 := congrArg (fun p => p.2.2) h
  simp only at h3
  rw [List.replicate_right_inj (by norm_num : (21 : ℕ) ≠ 0)] at h3
  exact absurd h3 (by norm_num)

/-- C8, amended: every notebook resets the itpp RNG with fixed seed 42
before its simulation loop; in the OFDM and convolutional-coding
notebooks every RNG-consuming call comes after the reset, so those two
simulations are deterministic — the run result is independent of the
initial RNG state, for every behaviour of the opaque library — whereas
the MIMO notebook's statistics also depend on the interleaver sequence
randomized before the reset. -/
theorem claim_C8 :
    (∀ (σ CVec CMat : Type) (M : OfdmItpp σ CVec CMat) (s1 s2 : σ),
      ofdmRun M s1 = ofdmRun M s2)
    ∧ (∀ (σ CVec CSt : Type) (M : ConvItpp σ CVec CSt) (s1 s2 : σ),
      convRun M s1 = convRun M s2)
    ∧ notebookList.all rngResetBeforeFirstLoop = true :=
  ⟨fun _ _ _ _ _ _ => rfl, fun _ _ _ _ _ _ => rfl, by decide⟩

/-- C9: the makerules fragment defines `FLAGS_PYTHON` containing
`-shared`, `-fPIC`, `-O3` and `-std=c++11`, defines
`LOCAL_LIBPATH = -L$(LOCAL_TARGET_DIR)` and
`LOCAL_LIB_SHARED = -l$(LIB_BASE_NAME)`. -/
theorem claim_C9 :
    ((makeVar "FLAGS_PYTHON").contains "-shared"
      && (makeVar "FLAGS_PYTHON").contains "-fPIC"
      && (makeVar "FLAGS_PYTHON").contains "-O3"
      && (makeVar "FLAGS_PYTHON").contains "-std=c++11") = true
    ∧ makeVar "LOCAL_LIBPATH" = ["-L$(LOCAL_TARGET_DIR)"]
    ∧ makeVar "LOCAL_LIB_SHARED" = ["-l$(LIB_BASE_NAME)"] := by
  refine ⟨by decide, by decide, by decide⟩

open PyStmt PyExpr in
/-- C10: every notebook sets integer simulation parameters and invokes
library routines (all three call `set_generator_polynomials`), and then
plots or saves its results: the OFDM notebook saves the channel
magnitude and transmission-success arrays to `datafile.npy`, the
convolutional-coding notebook plots `ber_np` against `EbN0_dB_np` with
`plt.semilogy`, and the MIMO notebook plots its three error-rate lists
against `EbN0_db_np` with `plt.semilogy`. -/
theorem claim_C10 :
    notebookList.map (fun nb => stmtsContainWhere (fun s =>
      match s with
      | .assign _ (.intLit _) => true
      | _ => false) nb) = [true, true, true]
    ∧ notebookList.map (stmtsHaveCall "set_generator_polynomials") = [true, true, true]
    ∧ savesOfdmData ofdmNotebook = true
    ∧ plotsSemilogy "EbN0_dB_np" "ber_np" convcodeNotebook = true
    ∧ (["uncoded_bit_error_rate", "coded_bit_error_rate", "frame_error_rate"]).all
        (fun r => plotsSemilogy "EbN0_db_np" r mimoNotebook) = true := by
  refine ⟨by decide, by decide, by decide, by decide, by decide⟩

end PyItpp